import Mathlib

/-!
# Formal verification of the MM market-making engine against its specification

This development shallowly embeds the parts of the MM repository that the
specification's claims are about, and proves or refutes each claim.

Conventions of the embedding:
* Python floats that carry prices, sizes and timestamps are modelled as exact
  rationals; the claims under scrutiny only involve arithmetic and comparisons
  that are robust to rounding at the concrete inputs used.
* Python ints are modelled as unbounded integers, with explicit reduction
  modulo a power of two where the source performs two's-complement wrapping.
* Python dicts are modelled as association lists with Python's update
  (replace-in-place or append) and delete semantics; a lookup of a missing
  key (a KeyError) is modelled by returning an error in the Except monad.
* numpy arrays of book rows are modelled as lists of rows.
-/

namespace MM

/-! ## Order book replica

Embedding of src/src/exchanges/common/localorderbook.py (class BaseOrderbook).
Each book side is a list of rows; the source keeps the rows in a dense
depth x columns float array (the optional third "count" column plays no role
in any claim and is omitted).
-/

/-- One price level of the book: a [price, size] row of the numpy array. -/
structure BookRow where
  price : ℚ
  size : ℚ
deriving DecidableEq, Repr

/-- Insert a row into a list sorted by strictly descending price, keeping the
existing order among equal prices. -/
def insertRowDesc (r : BookRow) : List BookRow → List BookRow
  | [] => [r]
  | x :: xs => if x.price < r.price then r :: x :: xs else x :: insertRowDesc r xs

/-- Insert a row into a list sorted by strictly ascending price. -/
def insertRowAsc (r : BookRow) : List BookRow → List BookRow
  | [] => [r]
  | x :: xs => if r.price < x.price then r :: x :: xs else x :: insertRowAsc r xs

/-- Modelled from the spec: numba_sort_desc (src/tools/Numbas.py is not in the
source tree). Per spec section 4.1 the bids are sorted descending by price;
the commented-out numpy variant in localorderbook.py uses argsort then
reversal. Insertion sort by descending price. -/
def numbaSortDesc (rows : List BookRow) : List BookRow :=
  rows.foldr insertRowDesc []

/-- Modelled from the spec: numba_sort_asc (src/tools/Numbas.py is not in the
source tree). Asks are sorted ascending by price. -/
def numbaSortAsc (rows : List BookRow) : List BookRow :=
  rows.foldr insertRowAsc []

/-- Modelled from the spec: nbisin (src/tools/Numbas.py is not in the source
tree). Used as self.bids[~nbisin(self.bids[:, 0], bids[:, 0])]: keep exactly
the rows whose price does not occur in the delta's price column. -/
def rowsNotIn (rows : List BookRow) (delta : List BookRow) : List BookRow :=
  rows.filter (fun r => ¬ delta.any (fun d => d.price == r.price))

/-- State of BaseOrderbook: the two sides, the best-bid-and-ask cache rows
bba[0] (bid) and bba[1] (ask), the last-update timestamp and the sequence id. -/
structure Orderbook where
  depth : ℕ
  bids : List BookRow
  asks : List BookRow
  bbaBid : BookRow
  bbaAsk : BookRow
  timestamp : ℚ
  seqId : ℤ
deriving DecidableEq, Repr

namespace Orderbook

/-- BaseOrderbook.__init__: zero-filled arrays of the given depth. -/
def init (depth : ℕ) : Orderbook :=
  { depth := depth
    bids := List.replicate depth ⟨0, 0⟩
    asks := List.replicate depth ⟨0, 0⟩
    bbaBid := ⟨0, 0⟩
    bbaAsk := ⟨0, 0⟩
    timestamp := 0
    seqId := 0 }

/-- BaseOrderbook.sort_bids: self.bids = numba_sort_desc(self.bids[:depth]);
bba[0] = bids[0]. The truncation to depth happens before sorting, exactly as
in the source. bids[0] of an empty array is modelled by a zero default (the
source never reaches that state in the runs considered here). -/
def sortBids (ob : Orderbook) : Orderbook :=
  let b := numbaSortDesc (ob.bids.take ob.depth)
  { ob with bids := b, bbaBid := b.headD ⟨0, 0⟩ }

/-- BaseOrderbook.sort_asks: self.asks = numba_sort_asc(self.asks[:depth]);
bba[1] = asks[0]. -/
def sortAsks (ob : Orderbook) : Orderbook :=
  let a := numbaSortAsc (ob.asks.take ob.depth)
  { ob with asks := a, bbaAsk := a.headD ⟨0, 0⟩ }

/-- BaseOrderbook.refresh: overwrite the first min(len, depth) rows of each
side with the supplied data (remaining rows keep their previous contents),
set the timestamp, advance seq_id (increment when the supplied id is zero,
else adopt it), then sort both sides. -/
def refresh (ob : Orderbook) (bids asks : List BookRow) (ts : ℚ) (newSeqId : ℤ) :
    Orderbook :=
  let maxAsks := min asks.length ob.depth
  let maxBids := min bids.length ob.depth
  let ob := { ob with
    asks := asks.take maxAsks ++ ob.asks.drop maxAsks
    bids := bids.take maxBids ++ ob.bids.drop maxBids
    timestamp := ts
    seqId := if newSeqId = 0 then ob.seqId + 1 else newSeqId }
  (ob.sortBids).sortAsks

/-- BaseOrderbook.update_bids: on a non-empty delta, advance seq_id, drop the
rows whose price occurs in the delta, append the delta rows of non-zero size,
re-sort the bid side, and raise the timestamp if strictly newer. The ask side
is not touched. -/
def updateBids (ob : Orderbook) (bids : List BookRow) (ts : ℚ) (newSeqId : ℤ) :
    Orderbook :=
  if bids = [] then ob
  else
    let ob := { ob with seqId := if newSeqId = 0 then ob.seqId + 1 else newSeqId }
    let ob := { ob with bids := rowsNotIn ob.bids bids ++ bids.filter (fun r : BookRow => r.size ≠ 0) }
    let ob := ob.sortBids
    { ob with timestamp := if ob.timestamp < ts then ts else ob.timestamp }

/-- BaseOrderbook.update_asks: mirror image of update_bids; the bid side is
not touched. -/
def updateAsks (ob : Orderbook) (asks : List BookRow) (ts : ℚ) (newSeqId : ℤ) :
    Orderbook :=
  if asks = [] then ob
  else
    let ob := { ob with seqId := if newSeqId = 0 then ob.seqId + 1 else newSeqId }
    let ob := { ob with asks := rowsNotIn ob.asks asks ++ asks.filter (fun r : BookRow => r.size ≠ 0) }
    let ob := ob.sortAsks
    { ob with timestamp := if ob.timestamp < ts then ts else ob.timestamp }

/-- BaseOrderbook.mid: (bba[0,0] + bba[1,0]) / 2. -/
def mid (ob : Orderbook) : ℚ :=
  (ob.bbaBid.price + ob.bbaAsk.price) / 2

/-- BaseOrderbook.wmid: imb = bba[0,1] / (bba[0,1] + bba[1,1]);
result = bba[0,0] * imb + bba[1,0] * (1 - imb). -/
def wmid (ob : Orderbook) : ℚ :=
  let imb := ob.bbaBid.size / (ob.bbaBid.size + ob.bbaAsk.size)
  ob.bbaBid.price * imb + ob.bbaAsk.price * (1 - imb)

/-- BaseOrderbook.spread: bba[1,0] - bba[0,0]. -/
def spread (ob : Orderbook) : ℚ :=
  ob.bbaAsk.price - ob.bbaBid.price

end Orderbook

/-- The spec's formula for the weighted mid (spec section 4.1): wmid =
bestBid * (askSize / (bidSize + askSize)) + bestAsk * (bidSize / (bidSize + askSize)).
Stated from the spec's words in order to compare it with the source's wmid. -/
def specWmid (ob : Orderbook) : ℚ :=
  ob.bbaBid.price * (ob.bbaAsk.size / (ob.bbaBid.size + ob.bbaAsk.size)) +
    ob.bbaAsk.price * (ob.bbaBid.size / (ob.bbaBid.size + ob.bbaAsk.size))

/-- A two-level book that a crossing bid delta is applied to. -/
def crossBook0 : Orderbook :=
  (Orderbook.init 2).refresh [⟨100, 1⟩, ⟨99, 1⟩] [⟨101, 1⟩, ⟨103, 1⟩] 1 1

/-- The same book after the delta removes the 99 bid and inserts a bid at 102,
which crosses the resting best ask at 101. -/
def crossBook1 : Orderbook :=
  crossBook0.updateBids [⟨99, 0⟩, ⟨102, 1⟩] 2 2

/-- A book whose top-of-book sizes are imbalanced (bid size 3, ask size 1),
used to separate the source's wmid from the spec's formula. -/
def wmidBook : Orderbook :=
  (Orderbook.init 2).refresh [⟨100, 3⟩, ⟨99, 1⟩] [⟨101, 1⟩, ⟨102, 2⟩] 1 1

/-! ## Python dictionaries

The stores of the engine are Python dicts. A dict is modelled as an
association list in insertion order with unique keys; assignment replaces the
value in place when the key is present and appends otherwise, deletion and
lookup of a missing key raise KeyError (modelled in the Except monad where
the source lets the error propagate).
-/

instance {ε α : Type} [DecidableEq ε] [DecidableEq α] : DecidableEq (Except ε α)
  | Except.error e, Except.error f =>
      if h : e = f then Decidable.isTrue (by rw [h]) else Decidable.isFalse (by simp [h])
  | Except.error _, Except.ok _ => Decidable.isFalse (by simp)
  | Except.ok _, Except.error _ => Decidable.isFalse (by simp)
  | Except.ok a, Except.ok b =>
      if h : a = b then Decidable.isTrue (by rw [h]) else Decidable.isFalse (by simp [h])

/-- A Python dict as an association list in insertion order. -/
abbrev PyDict (K V : Type) : Type := List (K × V)

namespace PyDict

variable {K V : Type} [DecidableEq K]

/-- The empty dict. -/
def empty : PyDict K V := []

/-- d.get(k): the value stored at k, if present. -/
def get? : PyDict K V → K → Option V
  | [], _ => none
  | p :: d, k => if p.1 = k then some p.2 else get? d k

/-- k in d. -/
def holdsKey (d : PyDict K V) (k : K) : Bool :=
  (d.get? k).isSome

/-- d[k] = v: replace in place when k is present, else append. -/
def set (d : PyDict K V) (k : K) (v : V) : PyDict K V :=
  if d.holdsKey k then
    d.map (fun p => if p.1 = k then (k, v) else p)
  else
    d ++ [(k, v)]

/-- Remove every binding of k (a dict holds at most one). -/
def eraseKey (d : PyDict K V) (k : K) : PyDict K V :=
  d.filter (fun p => decide (p.1 ≠ k))

/-- d[k] with KeyError: Except-valued lookup. -/
def getE (d : PyDict K V) (k : K) : Except String V :=
  match d.get? k with
  | some v => Except.ok v
  | none => Except.error "KeyError"

/-- del d[k] with KeyError when k is absent. -/
def delE (d : PyDict K V) (k : K) : Except String (PyDict K V) :=
  if d.holdsKey k then Except.ok (d.eraseKey k) else Except.error "KeyError"

/-- len(d). -/
def size (d : PyDict K V) : ℕ := d.length

/-- The values view of the dict, in insertion order. -/
def values (d : PyDict K V) : List V := d.map Prod.snd

end PyDict

/-! ## Level-encoded client order ids

Embedding of src/src/exchanges/hyperliquid/orderid.py: the Cloid wrapper
(128-bit two's-complement hex string) and the per-level id generator.
-/

/-- Cloid: the source stores a 32-hex-digit string; its information content is
the integer value of the string, a residue in [0, 2^128). -/
structure Cloid where
  raw : ℤ
deriving DecidableEq, Repr

namespace Cloid

/-- Cloid.from_int: negative ids are wrapped by adding 2^128 (two's
complement) before being rendered in hex. -/
def fromInt (cloid : ℤ) : Cloid :=
  ⟨if cloid < 0 then cloid + 2 ^ 128 else cloid⟩

/-- Cloid.to_int: values at or above 2^127 are interpreted as negative. -/
def toInt (c : Cloid) : ℤ :=
  if 2 ^ 127 ≤ c.raw then c.raw - 2 ^ 128 else c.raw

end Cloid

/-- State of HlOrderIdGenerator: the per-level counters, keyed by
level * 10^7 exactly as in the source. -/
structure HlOrderIdGenerator where
  noLevels : ℕ
  levelDict : PyDict ℤ ℤ
deriving DecidableEq, Repr

namespace HlOrderIdGenerator

/-- HlOrderIdGenerator.setLevels: counters for levels 1..n, -1..-n and 0,
all starting at zero. -/
def setLevels (n : ℕ) : HlOrderIdGenerator :=
  { noLevels := n
    levelDict :=
      ((List.range n).map (fun i => (((i : ℤ) + 1) * 10 ^ 7, (0 : ℤ)))) ++
        ((List.range n).map (fun i => (-((i : ℤ) + 1) * 10 ^ 7, (0 : ℤ)))) ++
        [(0, 0)] }

/-- HlOrderIdGenerator.generate_order_id: read the previous counter of the
level (KeyError when the level was never registered), advance it away from
zero, and return Cloid.from_int(level_num + new_counter). -/
def generateOrderId (g : HlOrderIdGenerator) (level : ℤ) :
    Except String (Cloid × HlOrderIdGenerator) := do
  let levelNum := level * 10 ^ 7
  let prev ← g.levelDict.getE levelNum
  let g' := { g with
    levelDict := g.levelDict.set levelNum (prev + (if 0 ≤ levelNum then 1 else -1)) }
  return (Cloid.fromInt (levelNum + (if 0 ≤ levelNum then prev + 1 else prev - 1)), g')

/-- HlOrderIdGenerator.match_level: floor division of the decoded integer by
10^7 (Python //). -/
def matchLevel (c : Cloid) : ℤ :=
  Int.fdiv c.toInt (10 ^ 7)

end HlOrderIdGenerator

/-! ## Common types

Embedding of src/src/exchanges/common/types.py: the Side / OrderType /
TimeInForce / OrderStatus integer constants, the Order record and the
Position record.
-/

namespace Side

/-- Side.BUY = 1. -/
def BUY : ℤ := 1

/-- Side.SELL = -1. -/
def SELL : ℤ := -1

end Side

namespace OrderType

/-- OrderType.LIMIT = 0. -/
def LIMIT : ℤ := 0

/-- OrderType.MARKET = 1. -/
def MARKET : ℤ := 1

/-- OrderType.STOP_LIMIT = 2. -/
def STOP_LIMIT : ℤ := 2

/-- OrderType.TAKE_PROFIT_LIMIT = 3. -/
def TAKE_PROFIT_LIMIT : ℤ := 3

end OrderType

namespace TimeInForce

/-- TimeInForce.GTC = 0. -/
def GTC : ℤ := 0

/-- TimeInForce.FOK = 1. -/
def FOK : ℤ := 1

/-- TimeInForce.POST_ONLY = 2. -/
def POST_ONLY : ℤ := 2

/-- TimeInForce.IOC = 3. -/
def IOC : ℤ := 3

end TimeInForce

namespace OrderStatus

/-- OrderStatus.IN_FLIGHT = 0. -/
def IN_FLIGHT : ℤ := 0

/-- OrderStatus.TO_BE_TRIGGERED = 1. -/
def TO_BE_TRIGGERED : ℤ := 1

/-- OrderStatus.IN_THE_BOOK = 2. -/
def IN_THE_BOOK : ℤ := 2

/-- OrderStatus.TO_CANCEL = 3. -/
def TO_CANCEL : ℤ := 3

/-- OrderStatus.RECENTLY_CANCELLED = 4. -/
def RECENTLY_CANCELLED : ℤ := 4

end OrderStatus

/-- The Order record. Optional Python attributes are Options; the venue order
id (an integer on Hyperliquid) and the client order id (a Cloid) are kept in
their decoded integer forms. -/
structure Order where
  symbol : String
  side : ℤ
  size : ℚ
  orderType : Option ℤ
  timeInForce : Option ℤ
  timestamp : ℚ
  currentStatus : Option ℤ
  price : Option ℚ
  orderId : Option ℤ
  clientOrderId : Option Cloid
  triggerPrice : Option ℚ
  reduceOnly : Bool
deriving DecidableEq, Repr

namespace Order

/-- Order.__eq__: two orders compare equal iff symbol, side, orderType,
timeInForce, price and size all match; ids, status and timestamps are
deliberately ignored. -/
def eqv (a b : Order) : Bool :=
  a.symbol = b.symbol ∧ a.side = b.side ∧ a.orderType = b.orderType ∧
    a.timeInForce = b.timeInForce ∧ a.price = b.price ∧ a.size = b.size

/-- Order.changeStatus. -/
def changeStatus (o : Order) (newStatus : ℤ) : Order :=
  { o with currentStatus := some newStatus }

end Order

/-- The Position record. The source's reset method assigns an attribute
named _price that no other method ever reads or writes (the entry price
lives in _entryPrice); the stray attribute is carried here so that reset can
be ported verbatim. -/
structure Position where
  symbol : String
  side : Option ℤ
  entryPrice : Option ℚ
  size : ℚ
  uPnl : ℚ
  updateCounter : ℤ
  openTime : Option ℚ
  stray_price : Option ℚ
deriving DecidableEq, Repr

namespace Position

/-- Position.__init__ with only the symbol supplied, as in
generate_data_dict. -/
def init (symbol : String) : Position :=
  { symbol := symbol
    side := none
    entryPrice := none
    size := 0
    uPnl := 0
    updateCounter := 0
    openTime := none
    stray_price := none }

/-- Position.update: the counter increments when the supplied side equals the
stored one and resets to zero otherwise; the open time restarts when the side
changes and a timestamp is supplied; each remaining field is overwritten only
when its argument is not None. -/
def update (p : Position) (symbol : Option String) (side : Option ℤ)
    (entryPrice : Option ℚ) (size : Option ℚ) (uPnl : Option ℚ)
    (timestamp : Option ℚ) : Position :=
  let counter := p.updateCounter + (if side = p.side then 1 else -p.updateCounter)
  let openTime := if side ≠ p.side ∧ timestamp ≠ none then timestamp else p.openTime
  { p with
    updateCounter := counter
    openTime := openTime
    symbol := symbol.getD p.symbol
    side := if side = none then p.side else side
    entryPrice := if entryPrice = none then p.entryPrice else entryPrice
    size := size.getD p.size
    uPnl := uPnl.getD p.uPnl }

/-- Position.reset, ported verbatim: it clears the side, zeroes the size, the
uPnl and the counter, restarts the open time at the current time - and
assigns None to the stray _price attribute while leaving _entryPrice
untouched. time_ms() is passed in as the argument now (src/tools/misc.py is
not in the source tree; per the spec the reset sets openTime to the current
time). -/
def reset (p : Position) (now : ℚ) : Position :=
  { p with
    side := none
    stray_price := none
    size := 0
    uPnl := 0
    updateCounter := 0
    openTime := some now }

end Position

/-! ## Hyperliquid position handler

Embedding of the userFills branch of HlPositionHandler.process
(src/src/exchanges/hyperliquid/ws_handlers/position.py).
-/

/-- HlSideConverter.to_num: "B" is buy (+1), "A" is sell (-1); an unknown
string falls back to the converter's default 0. -/
def hlSideToNum (s : String) : ℤ :=
  if s = "B" then 1 else if s = "A" then -1 else 0

/-- One entry of a userFills message (the fields the handler reads). -/
structure HlFill where
  coin : String
  side : String
  px : ℚ
  sz : ℚ
  startPosition : ℚ
  time : ℚ
deriving DecidableEq, Repr

/-- HlPositionHandler.EPSILON = 1e-6. -/
def hlEpsilon : ℚ := 1 / 1000000

/-- One iteration of the fill loop of HlPositionHandler.process: skip foreign
coins; when the post-fill size is within EPSILON of zero, reset the position;
otherwise recompute the weighted-average entry price, the uPnl against the
mark price and the side, and apply Position.update. Reading a None entry
price in the arithmetic is Python's TypeError, modelled as an error. -/
def hlProcessFill (symbol : String) (markPrice : ℚ) (now : ℚ) (p : Position)
    (fill : HlFill) : Except String Position :=
  if fill.coin ≠ symbol then Except.ok p
  else
    let startSize := fill.startPosition
    let newSize := startSize + hlSideToNum fill.side * fill.sz
    if |newSize - 0| < hlEpsilon then Except.ok (p.reset now)
    else do
      let newAvgEntry ←
        if startSize * newSize > 0 then
          if |newSize| ≥ |startSize| then
            match p.entryPrice with
            | some e => Except.ok ((e * |p.size| + fill.px * fill.sz) / |newSize|)
            | none => Except.error "TypeError"
          else
            match p.entryPrice with
            | some e => Except.ok e
            | none => Except.error "TypeError"
        else Except.ok fill.px
      let uPnl := (newAvgEntry - markPrice) * newSize
      Except.ok (p.update none (some (if 0 < newSize then 1 else -1))
        (some newAvgEntry) (some newSize)
        (some (if 0 < newSize then uPnl else -uPnl)) (some fill.time))

/-- The fill loop of HlPositionHandler.process over a whole userFills
message. -/
def hlProcessFills (symbol : String) (markPrice : ℚ) (now : ℚ) :
    Position → List HlFill → Except String Position
  | p, [] => Except.ok p
  | p, f :: fs => do
      let p' ← hlProcessFill symbol markPrice now p f
      hlProcessFills symbol markPrice now p' fs

/-- A long position of size 1 at entry price 100. -/
def c3Pos : Position :=
  { symbol := "ETH", side := some 1, entryPrice := some 100, size := 1,
    uPnl := 5, updateCounter := 2, openTime := some 0, stray_price := none }

/-- The fill that flattens c3Pos: a sell of the whole size. -/
def c3Fill : HlFill :=
  { coin := "ETH", side := "A", px := 101, sz := 1, startPosition := 1, time := 7 }

/-! ## Hyperliquid orders handler

Embedding of HlOrdersHandler.process
(src/src/exchanges/hyperliquid/ws_handlers/orders.py). The order store's
dicts are keyed either by a cloid hex string or by an integer venue oid;
a Python None used where a key is expected is its own key value. The source
mutates Order objects in place through whichever dict currently references
them, and the same object is referenced from several dicts (the source
comments that every dict references the same order objects); an in-place
mutation is therefore modelled as a value update applied at the key in every
partition.
-/

/-- A key of the order-store dicts. -/
inductive DictKey
  | oid (n : ℤ)
  | cloid (c : Cloid)
  | pynone
deriving DecidableEq, Repr

/-- data["orders"]: the nine partitions of the order store. -/
structure OrderStore where
  to_create : PyDict DictKey Order
  to_amend : PyDict DictKey Order
  to_cancel : PyDict DictKey Order
  tp : PyDict DictKey Order
  sl : PyDict DictKey Order
  in_flight : PyDict DictKey Order
  to_be_triggered : PyDict DictKey Order
  in_the_book : PyDict DictKey Order
  recently_cancelled : PyDict DictKey Order
deriving DecidableEq, Repr

/-- The empty order store. -/
def OrderStore.empty : OrderStore :=
  { to_create := [], to_amend := [], to_cancel := [], tp := [], sl := [],
    in_flight := [], to_be_triggered := [], in_the_book := [],
    recently_cancelled := [] }

/-- The four asyncio.Event flags of a venue's data dict. -/
structure Flags where
  position : Bool
  to_create : Bool
  to_amend : Bool
  to_cancel : Bool
deriving DecidableEq, Repr

/-- All four flags cleared. -/
def Flags.clear : Flags :=
  { position := false, to_create := false, to_amend := false, to_cancel := false }

/-- Apply a value update at one key of a dict, leaving other keys alone. -/
def PyDict.mapAt {K V : Type} [DecidableEq K] (d : PyDict K V) (k : K)
    (f : V → V) : PyDict K V :=
  d.map (fun p => if p.1 = k then (p.1, f p.2) else p)

/-- An in-place mutation of the (shared) Order object registered under a key:
the update is visible through every partition that references it. -/
def OrderStore.mutateAll (st : OrderStore) (k : DictKey) (f : Order → Order) :
    OrderStore :=
  { to_create := st.to_create.mapAt k f
    to_amend := st.to_amend.mapAt k f
    to_cancel := st.to_cancel.mapAt k f
    tp := st.tp.mapAt k f
    sl := st.sl.mapAt k f
    in_flight := st.in_flight.mapAt k f
    to_be_triggered := st.to_be_triggered.mapAt k f
    in_the_book := st.in_the_book.mapAt k f
    recently_cancelled := st.recently_cancelled.mapAt k f }

/-- One entry of an orderUpdates message (the fields the handler reads).
szStr carries the raw string of the size field, compared against "0.0" in the
liquidation check. -/
structure HlOrderEvent where
  coin : String
  cloid : Option Cloid
  oid : ℤ
  side : String
  sz : ℚ
  szStr : String
  status : String
  statusTimestamp : ℚ
  reduceOnly : Bool
deriving DecidableEq, Repr

/-- The dict key the handler uses for cloid-indexed operations. -/
def HlOrderEvent.key (ev : HlOrderEvent) : DictKey :=
  match ev.cloid with
  | some c => DictKey.cloid c
  | none => DictKey.pynone

/-- self.sides_dict = {'A': -1, 'B': 1} with self.DEFAULTNUM = -123456789 as
the .get fallback. -/
def hlOrdersSideNum (s : String) : ℤ :=
  if s = "A" then -1 else if s = "B" then 1 else -123456789

/-- The placeholder order the handler queues in order to cancel a foreign
order: only symbol, side, venue orderId and size are filled in; all other
constructor arguments keep their defaults. -/
def hlCancelPlaceholder (ev : HlOrderEvent) : Order :=
  { symbol := ev.coin
    side := hlOrdersSideNum ev.side
    size := ev.sz
    orderType := none
    timeInForce := none
    timestamp := 0
    currentStatus := some OrderStatus.IN_FLIGHT
    price := none
    orderId := some ev.oid
    clientOrderId := none
    triggerPrice := none
    reduceOnly := false }

/-- if cloid in to_create: del, elif cloid in to_amend: del - the guarded
removal of the id from the intent queues at the head of the loop body. -/
def hlOrdersDropIntents (st : OrderStore) (k : DictKey) : OrderStore :=
  if st.to_create.holdsKey k then { st with to_create := st.to_create.eraseKey k }
  else if st.to_amend.holdsKey k then { st with to_amend := st.to_amend.eraseKey k }
  else st

/-- if cloid in tp: del, elif cloid in sl: del - the guarded removal of the
take-profit / stop-loss tag in the terminal branch. -/
def hlOrdersDropTags (st : OrderStore) (k : DictKey) : OrderStore :=
  if st.tp.holdsKey k then { st with tp := st.tp.eraseKey k }
  else if st.sl.holdsKey k then { st with sl := st.sl.eraseKey k }
  else st

/-- if cloid in to_cancel: del - the guarded removal from to_cancel in the
terminal branch. -/
def hlOrdersDropCancel (st : OrderStore) (k : DictKey) : OrderStore :=
  if st.to_cancel.holdsKey k then { st with to_cancel := st.to_cancel.eraseKey k }
  else st

/-- The "rejected" sub-branch of the terminal statuses: only the in_flight
entry of the id is moved to recently_cancelled, with status and timestamp
updated through the shared object; the membership guard followed by the
lookup of the source is the match on the lookup. -/
def hlOrdersRejectedStep (st : OrderStore) (k : DictKey) (ts : ℚ) : OrderStore :=
  match st.in_flight.get? k with
  | some o =>
    let st := { st with recently_cancelled := st.recently_cancelled.set k o }
    let st := st.mutateAll k (fun o => o.changeStatus OrderStatus.RECENTLY_CANCELLED)
    let st := st.mutateAll k (fun o => { o with timestamp := ts })
    { st with in_flight := st.in_flight.eraseKey k }
  | none => st

/-- The part of the loop body of HlOrdersHandler.process reached by events
that carry a cloid (and by cloid-less events whose status escapes the
dedicated cloid-less branches): drop the id from the to_create / to_amend
intent queues, then dispatch on the status. The "triggered" branch and the
non-rejected terminal branch index their source partitions without a
membership check; a missing key is Python's KeyError. -/
def hlOrdersMain (st : OrderStore) (fl : Flags) (ev : HlOrderEvent) :
    Except String (OrderStore × Flags) :=
  let k := ev.key
  let st := hlOrdersDropIntents st k
  if ev.status = "open" then
    match st.in_flight.get? k with
    | none =>
      Except.ok
        ({ st with to_cancel := st.to_cancel.set (DictKey.oid ev.oid) (hlCancelPlaceholder ev) },
          { fl with to_cancel := true })
    | some _ =>
      let st := st.mutateAll k
        (fun o => { o with orderId := some ev.oid, timestamp := ev.statusTimestamp })
      if st.to_be_triggered.holdsKey k = false then
        match st.in_flight.get? k with
        | some o =>
          let st := { st with in_the_book := st.in_the_book.set k o }
          let st := st.mutateAll k (fun o => o.changeStatus OrderStatus.IN_THE_BOOK)
          Except.ok ({ st with in_flight := st.in_flight.eraseKey k }, fl)
        | none => Except.error "KeyError"
      else
        Except.ok ({ st with in_flight := st.in_flight.eraseKey k }, fl)
  else if ev.status = "triggered" then
    match st.to_be_triggered.get? k with
    | some o =>
      let st := { st with in_the_book := st.in_the_book.set k o }
      let st := st.mutateAll k (fun o => o.changeStatus OrderStatus.IN_THE_BOOK)
      Except.ok ({ st with to_be_triggered := st.to_be_triggered.eraseKey k }, fl)
    | none => Except.error "KeyError"
  else if ev.status = "rejected" ∨ ev.status = "filled" ∨ ev.status = "canceled" ∨
      ev.status = "marginCanceled" then
    let st := hlOrdersDropTags st k
    let st := hlOrdersDropCancel st k
    if ev.status = "rejected" then
      Except.ok (hlOrdersRejectedStep st k ev.statusTimestamp, fl)
    else
      match st.in_the_book.get? k with
      | some o =>
        let st := { st with recently_cancelled := st.recently_cancelled.set k o }
        let st := st.mutateAll k (fun o => o.changeStatus OrderStatus.RECENTLY_CANCELLED)
        let st := st.mutateAll k (fun o => { o with timestamp := ev.statusTimestamp })
        Except.ok ({ st with in_the_book := st.in_the_book.eraseKey k }, fl)
      | none => Except.error "KeyError"
  else
    Except.ok (st, fl)

/-- The loop body of HlOrdersHandler.process for one event: skip foreign
coins, handle the cloid-less statuses (a cloid-less "canceled" deletes the
oid from to_cancel, KeyError when absent), and otherwise run the main
dispatch. -/
def hlOrdersProcessEvent (symbol : String) (st : OrderStore) (fl : Flags)
    (ev : HlOrderEvent) : Except String (OrderStore × Flags) :=
  if ev.coin ≠ symbol then Except.ok (st, fl)
  else if ev.cloid = none ∧ ev.status = "open" then
    Except.ok
      ({ st with to_cancel := st.to_cancel.set (DictKey.oid ev.oid) (hlCancelPlaceholder ev) },
        { fl with to_cancel := true })
  else if ev.cloid = none ∧ ev.status = "canceled" then
    (st.to_cancel.delE (DictKey.oid ev.oid)).map
      (fun d => ({ st with to_cancel := d }, fl))
  else if ev.cloid = none ∧ ev.status = "filled" ∧ ev.szStr = "0.0" ∧ ev.reduceOnly then
    Except.ok (st, fl)
  else
    hlOrdersMain st fl ev

/-- Is the computation a success? -/
def exceptOk {ε α : Type} (e : Except ε α) : Bool :=
  match e with
  | Except.ok _ => true
  | Except.error _ => false

/-- A conditional order resting in to_be_triggered. -/
def c4Order : Order :=
  { symbol := "ETH", side := 1, size := 1, orderType := some OrderType.STOP_LIMIT,
    timeInForce := some TimeInForce.GTC, timestamp := 3,
    currentStatus := some OrderStatus.TO_BE_TRIGGERED, price := some 100,
    orderId := some 5, clientOrderId := some ⟨1⟩, triggerPrice := some 100,
    reduceOnly := false }

/-- A store holding c4Order in to_be_triggered only. -/
def c4Store : OrderStore :=
  { OrderStore.empty with to_be_triggered := [(DictKey.cloid ⟨1⟩, c4Order)] }

/-- The "triggered" event for c4Order. -/
def c4TriggeredEv : HlOrderEvent :=
  { coin := "ETH", cloid := some ⟨1⟩, oid := 5, side := "B", sz := 1,
    szStr := "1.0", status := "triggered", statusTimestamp := 10,
    reduceOnly := false }

/-- An order resting in the book. -/
def c4BookOrder : Order :=
  { symbol := "ETH", side := 1, size := 1, orderType := some OrderType.LIMIT,
    timeInForce := some TimeInForce.POST_ONLY, timestamp := 3,
    currentStatus := some OrderStatus.IN_THE_BOOK, price := some 100,
    orderId := some 6, clientOrderId := some ⟨2⟩, triggerPrice := none,
    reduceOnly := false }

/-- A store holding c4BookOrder in in_the_book only. -/
def c4BookStore : OrderStore :=
  { OrderStore.empty with in_the_book := [(DictKey.cloid ⟨2⟩, c4BookOrder)] }

/-- The "filled" event for c4BookOrder. -/
def c4FilledEv : HlOrderEvent :=
  { coin := "ETH", cloid := some ⟨2⟩, oid := 6, side := "B", sz := 0,
    szStr := "0.0", status := "filled", statusTimestamp := 11,
    reduceOnly := false }

/-- An in-flight order about to be rejected. -/
def c4RejOrder : Order :=
  { symbol := "ETH", side := 1, size := 1, orderType := some OrderType.LIMIT,
    timeInForce := some TimeInForce.POST_ONLY, timestamp := 3,
    currentStatus := some OrderStatus.IN_FLIGHT, price := some 100,
    orderId := none, clientOrderId := some ⟨3⟩, triggerPrice := none,
    reduceOnly := false }

/-- A store holding c4RejOrder in in_flight only. -/
def c4RejStore : OrderStore :=
  { OrderStore.empty with in_flight := [(DictKey.cloid ⟨3⟩, c4RejOrder)] }

/-- The "rejected" event for c4RejOrder. -/
def c4RejEv : HlOrderEvent :=
  { coin := "ETH", cloid := some ⟨3⟩, oid := 7, side := "B", sz := 1,
    szStr := "1.0", status := "rejected", statusTimestamp := 12,
    reduceOnly := false }

/-! ## OMS out-of-bounds test

Embedding of OrderManagementSystem.is_out_of_bounds and the matched-LIMIT
branch of OrderManagementSystem.update (src/src/marketmaking/oms/oms.py).
-/

/-- OrderManagementSystem.is_out_of_bounds: distance_from_mid is the distance
of the new order's price from the book mid, the buffer is that distance times
the sensitivity, and the old order is out of bounds when the two prices are
farther apart than the buffer. The arguments are the two orders' prices (the
test is applied to limit orders, whose price field is set) and the book mid. -/
def is_out_of_bounds (mid oldPrice newPrice sensitivity : ℚ) : Bool :=
  let distance_from_mid := |newPrice - mid|
  let buffer := distance_from_mid * sensitivity
  |oldPrice - newPrice| > buffer

/-- is_out_of_bounds at its default sensitivity 0.2, as called from
OrderManagementSystem.update. -/
def is_out_of_bounds_default (mid oldPrice newPrice : ℚ) : Bool :=
  is_out_of_bounds mid oldPrice newPrice (2 / 10)

/-- The matched-LIMIT branch of OrderManagementSystem.update: when a resting
order of the proposal's level exists, the pair (cancel the old, create the
new) is (true, true) if the old order is out of bounds and (false, false)
otherwise (in bounds: nothing is sent). -/
def omsMatchedDecision (mid oldPrice newPrice : ℚ) : Bool × Bool :=
  if is_out_of_bounds_default mid oldPrice newPrice then (true, true)
  else (false, false)

/-! ## Parameter processing

Embedding of MMSharedState.process_parameters
(src/src/marketmaking/sharedstate.py), reload path: after storing the
"parameters" sub-document (a mapping from quote-generator name to that
generator's parameter dict), the guard compares required_keys against the
keys of that mapping with a strict-superset test, and only when the guard
holds does the loop raise for a missing required key.
-/

/-- MMSharedState.required_keys. -/
def requiredKeys : List String := ["max_position", "total_orders"]

/-- Python set strict superset a > b on key collections. -/
def pySetStrictSuperset (a b : List String) : Bool :=
  b.all (fun k => a.contains k) ∧ ¬ a.all (fun k => b.contains k)

/-- The required-keys guard and loop of MMSharedState.process_parameters:
self.parameters = parameters["parameters"]; if required_keys >
self.parameters.keys(): raise on the first required key not present (set
iteration order does not affect whether an exception is raised). -/
def processParametersCheck (parameters : PyDict String (PyDict String ℚ)) :
    Except String Unit :=
  let keys := parameters.map Prod.fst
  if pySetStrictSuperset requiredKeys keys then
    match requiredKeys.find? (fun k => ¬ keys.contains k) with
    | some k => Except.error ("Missing " ++ k)
    | none => Except.ok ()
  else Except.ok ()

/-- A parameters document whose active quote generator "sandbox" has an empty
parameter dict: both required keys are missing from it. -/
def c9Params : PyDict String (PyDict String ℚ) := [("sandbox", [])]

/-! ## Sandbox quote generator: per-side size budgets

Embedding of the budget selection of
SandBoxQuoteGenerator.generate_stinky_orders
(src/src/marketmaking/quote_generators/sandbox.py lines 75-85): the scalars
that multiply the geometric weight vectors of the bid and ask sides.
-/

/-- The budget selection: if (position.size - 0.0) < 1e-6 (note: no absolute
value), check the stored side; a BUY side reduces the bid budget to
max(0, max_position - |size|), otherwise the ask budget is reduced; when the
guard fails (any size of at least 1e-6, i.e. every long position), both
budgets stay at max_position. Returns (bid budget, ask budget). -/
def generateStinkyBudgets (side : Option ℤ) (size maxPosition : ℚ) : ℚ × ℚ :=
  if size - 0 < 1 / 1000000 then
    if side = some Side.BUY then
      (max 0 (maxPosition - |size|), maxPosition)
    else
      (maxPosition, max 0 (maxPosition - |size|))
  else
    (maxPosition, maxPosition)

/-! ## Rounding tools

Embedding of src/src/tools/rounding.py. Python's round and numpy's np.round
are round-half-to-even; log10 is modelled exactly (the float log10 agrees
with the exact value on every magnitude these functions see here), with
floor(log10 r) = Int.log 10 r and ceil(-log10 r) = -Int.log 10 r.
-/

/-- Round half to even to an integer, as Python's round and numpy's np.round
do. -/
def roundHalfEven (q : ℚ) : ℤ :=
  if q - ⌊q⌋ < 1 / 2 then ⌊q⌋
  else if 1 / 2 < q - ⌊q⌋ then ⌊q⌋ + 1
  else if ⌊q⌋ % 2 = 0 then ⌊q⌋ else ⌊q⌋ + 1

/-- round(x, decimals): round half to even at the given decimal place. -/
def pyRound (q : ℚ) (decimals : ℤ) : ℚ :=
  (roundHalfEven (q * (10 : ℚ) ^ decimals) : ℚ) / (10 : ℚ) ^ decimals

/-- round_discrete: np.round(step * np.round(num / step),
int(np.ceil(-np.log10(step)))). -/
def round_discrete (num step : ℚ) : ℚ :=
  pyRound (step * (roundHalfEven (num / step) : ℚ)) (-(Int.log 10 step))

/-- hl_round_floor: clamp to sig_figs significant figures flooring the last
one, then round to the given decimals. -/
def hl_round_floor (num : ℚ) (sigFigs decimals : ℤ) : ℚ :=
  let scale := (10 : ℚ) ^ (sigFigs - Int.log 10 |num| - 1)
  pyRound ((⌊num * scale⌋ : ℚ) / scale) decimals

/-- hl_round_ceil: clamp to sig_figs significant figures ceiling the last
one, then round to the given decimals. -/
def hl_round_ceil (num : ℚ) (sigFigs decimals : ℤ) : ℚ :=
  let scale := (10 : ℚ) ^ (sigFigs - Int.log 10 |num| - 1)
  pyRound ((⌈num * scale⌉ : ℚ) / scale) decimals

/-! ## Sandbox position executor

Embedding of SandBoxQuoteGenerator.position_executor
(src/src/marketmaking/quote_generators/sandbox.py lines 146-249): the body of
one wake after the position flag fired. self.generated_tp aliases the
store's tp dict. time_ms() is the now argument.
-/

/-- QuoteGenerator.generate_single_quote: an Order with the given fields, the
current time as timestamp, and the Python constructor defaults elsewhere. -/
def generate_single_quote (symbol : String) (side orderType timeInForce : ℤ)
    (price size : ℚ) (clientOrderId : Cloid) (orderId : Option ℤ)
    (reduceOnly : Bool) (now : ℚ) : Order :=
  { symbol := symbol
    side := side
    size := size
    orderType := some orderType
    timeInForce := some timeInForce
    timestamp := now
    currentStatus := some OrderStatus.IN_FLIGHT
    price := some price
    orderId := orderId
    clientOrderId := some clientOrderId
    triggerPrice := none
    reduceOnly := reduceOnly }

/-- The newest-timestamp scan of the executor's multi-TP branch:
newest_timestamp starts at 0 and only a strictly greater timestamp takes the
index, so if no timestamp exceeds 0 the index is never assigned (Python's
NameError). -/
def pyNewestIdx (orders : List Order) : Option ℕ :=
  (orders.enum.foldl
    (fun (acc : ℚ × Option ℕ) p =>
      if p.2.timestamp > acc.1 then (p.2.timestamp, some p.1) else acc)
    ((0 : ℚ), none)).2

/-- Lines 161-187: resolve the previously generated take profits. Result
Sum.inl (active, store, flags): proceed with the given active TP (some order
iff a previous TP exists); Sum.inr: the executor cleared the position flag
and continued (a previous TP exists but none is active and at least one is
still awaiting acknowledgement). Cancels of surplus TPs are keyed by
clientOrderId.to_raw(); a TP without a cloid would be Python's
AttributeError. -/
def sandboxResolveTp (st : OrderStore) (fl : Flags) :
    Except String ((Option Order × OrderStore × Flags) ⊕ (OrderStore × Flags)) :=
  if 0 < st.tp.size then
    let active := st.tp.values.filter
      (fun o => st.in_the_book.values.any (fun b => Order.eqv o b))
    let isInactivePrevious := decide (0 < st.tp.size - active.length)
    if 1 < active.length then
      match pyNewestIdx active with
      | none => Except.error "NameError"
      | some i =>
        match active.get? i with
        | none => Except.error "IndexError"
        | some newest => do
          let rest := active.eraseIdx i
          let cancels ← rest.mapM (fun o =>
            match o.clientOrderId with
            | some c => Except.ok ((DictKey.cloid c, o) : DictKey × Order)
            | none => Except.error "AttributeError")
          let st := { st with
            to_cancel := cancels.foldl (fun d p => d.set p.1 p.2) st.to_cancel }
          Except.ok (Sum.inl (some newest, st, { fl with to_cancel := true }))
    else if 0 < active.length ∧ isInactivePrevious = false then
      Except.ok (Sum.inl (active.head?, st, fl))
    else
      Except.ok (Sum.inr (st, { fl with position := false }))
  else
    Except.ok (Sum.inl (none, st, fl))

/-- Lines 228-248: queue the generated orders. The first order also lands in
generated_tp; a previous TP routes to to_amend (only while at most two TPs
are outstanding), a fresh one routes to to_create; the matching flag is set
and the position flag cleared. -/
def sandboxDispatch (st : OrderStore) (fl : Flags) (isPreviousTp : Bool)
    (orders : List Order) : Except String (OrderStore × Flags) :=
  match orders with
  | [] => Except.ok (st, { fl with position := false })
  | o0 :: _ => do
    let k0 ← match o0.clientOrderId with
      | some c => Except.ok (DictKey.cloid c)
      | none => Except.error "AttributeError"
    if isPreviousTp then
      if st.tp.size ≤ 2 then
        let st := { st with tp := st.tp.set k0 o0 }
        let st ← orders.foldlM (fun s o => do
          let k ← match o.clientOrderId with
            | some c => Except.ok (DictKey.cloid c)
            | none => Except.error "AttributeError"
          Except.ok { s with to_amend := s.to_amend.set k o }) st
        Except.ok (st, { fl with to_amend := true, position := false })
      else
        Except.ok (st, { fl with position := false })
    else
      let st := { st with tp := st.tp.set k0 o0 }
      let st ← orders.foldlM (fun s o => do
        let k ← match o.clientOrderId with
          | some c => Except.ok (DictKey.cloid c)
          | none => Except.error "AttributeError"
        Except.ok { s with to_create := s.to_create.set k o }) st
      Except.ok (st, { fl with to_create := true, position := false })

/-- One wake of SandBoxQuoteGenerator.position_executor after the position
flag fired: plan the take-profit quote, discard it for a market close when
the liquidation timer has expired, queue the result and clear the position
flag. Reading a None entry price or open time in arithmetic is Python's
TypeError. -/
def sandboxExecutorWake (symbol : String)
    (takeProfit liquidationTimer lotSize : ℚ) (pos : Position)
    (st0 : OrderStore) (fl0 : Flags) (gen0 : HlOrderIdGenerator) (now : ℚ) :
    Except String (OrderStore × Flags × HlOrderIdGenerator) :=
  if |pos.size - 0| > 1 / 1000000 then
    match pos.entryPrice with
    | none => Except.error "TypeError"
    | some entry =>
      let closingSide := if pos.size > 0 then Side.SELL else Side.BUY
      let tp := (takeProfit / 10000) * entry
      let isPreviousTp := decide (0 < st0.tp.size)
      let price := entry + (if closingSide = Side.SELL then tp else -tp)
      do
        let res ← sandboxResolveTp st0 fl0
        match res with
        | Sum.inr r => Except.ok (r.1, r.2, gen0)
        | Sum.inl (active, st, fl) => do
          let g1 ← gen0.generateOrderId 0
          let activeOrderId := match active with
            | some a => a.orderId
            | none => none
          let prevOid := if isPreviousTp then activeOrderId else none
          let tpOrder := generate_single_quote symbol closingSide OrderType.LIMIT
            TimeInForce.POST_ONLY
            (if closingSide = Side.SELL then hl_round_ceil price 5 6
              else hl_round_floor price 5 6)
            (round_discrete |pos.size| lotSize) g1.1 prevOid false now
          let orders : List Order := [tpOrder]
          let orders :=
            if (isPreviousTp &&
                (match active with
                  | some a => Order.eqv tpOrder a
                  | none => false)) = true then [] else orders
          match pos.openTime with
          | none => Except.error "TypeError"
          | some openT =>
            if now - openT ≥ liquidationTimer then do
              let g2 ← g1.2.generateOrderId 0
              let mkt := generate_single_quote symbol
                (if pos.size > 0 then Side.SELL else Side.BUY)
                OrderType.MARKET TimeInForce.FOK 0
                (round_discrete |pos.size| lotSize) g2.1 prevOid false now
              let r ← sandboxDispatch st fl isPreviousTp [mkt]
              Except.ok (r.1, r.2, g2.2)
            else do
              let r ← sandboxDispatch st fl isPreviousTp orders
              Except.ok (r.1, r.2, g1.2)
  else
    Except.ok (st0, { fl0 with position := false }, gen0)

/-- The position the liquidation scenario starts from: long 0.5 at entry 100,
opened at t = 0. -/
def c5Pos : Position :=
  { symbol := "ETH", side := some 1, entryPrice := some 100, size := 1 / 2,
    uPnl := 0, updateCounter := 0, openTime := some 0, stray_price := none }

/-! ## Order.__hash__ versus Order.__eq__

Order.__hash__ is hash((symbol, side, orderType, timeInForce, price, size,
orderId, clientOrderId, current_status, timestamp)) - four more fields than
__eq__ compares. The builtin is modelled by CPython's 64-bit tuple hash
(the xxHash-style combiner of CPython 3.8+): small non-negative ints hash to
themselves (they are below the Mersenne modulus 2^61 - 1), a float of
integral value hashes like the integer, and the empty string hashes to 0 on
every run. The hash of a Cloid object (no __hash__ of its own) is derived
from the object's id and varies per run; it enters as a parameter, the same
value for both orders when both reference the same object.
-/

/-- CPython _PyHASH_XXPRIME_1. -/
def xxPrime1 : ℕ := 11400714785074694791

/-- CPython _PyHASH_XXPRIME_2. -/
def xxPrime2 : ℕ := 14029467366897019727

/-- CPython _PyHASH_XXPRIME_5. -/
def xxPrime5 : ℕ := 2870177450012600261

/-- 64-bit rotate left by 31. -/
def rotl31 (x : ℕ) : ℕ := (x % 2 ^ 33) * 2 ^ 31 + x / 2 ^ 33

/-- One lane of CPython's tuple hash: acc += lane * XXPRIME_2;
acc = rotl31 acc; acc *= XXPRIME_1 (all 64-bit). -/
def pyHashRound (acc lane : ℕ) : ℕ :=
  rotl31 ((acc + lane * xxPrime2) % 2 ^ 64) * xxPrime1 % 2 ^ 64

/-- CPython's tuple hash before the reserved-value fixup: fold the lanes from
XXPRIME_5, then add len ^ (XXPRIME_5 ^ 3527539). -/
def pyTupleHashRaw (lanes : List ℕ) : ℕ :=
  (lanes.foldl pyHashRound xxPrime5 + (lanes.length ^^^ (xxPrime5 ^^^ 3527539))) % 2 ^ 64

/-- CPython's tuple hash: the reserved value -1 is replaced by 1546275796. -/
def pyTupleHash (lanes : List ℕ) : ℕ :=
  let acc := pyTupleHashRaw lanes
  if acc = 2 ^ 64 - 1 then 1546275796 else acc

/-- hash of a small non-negative Python int: the value itself below
2^61 - 1. -/
def pyHashInt (n : ℤ) : ℕ :=
  (n.emod (2 ^ 61 - 1)).toNat

/-- hash of a Python float of integral value: the hash of that integer. -/
def pyHashRatFloat (q : ℚ) : ℕ :=
  if q.den = 1 then pyHashInt q.num else 0

/-- Lane of an optional int field: the value's hash, or the run's hash of the
None singleton. -/
def pyHashOptInt (hNone : ℕ) : Option ℤ → ℕ
  | some v => pyHashInt v
  | none => hNone

/-- Lane of an optional float field. -/
def pyHashOptRatFloat (hNone : ℕ) : Option ℚ → ℕ
  | some v => pyHashRatFloat v
  | none => hNone

/-- The ten lanes of Order.__hash__'s tuple, in the order of the source:
symbol, side, orderType, timeInForce, price, size, orderId, clientOrderId,
current_status, timestamp. The symbol lane and the clientOrderId lane are
parameters (a non-empty string hash is seed-randomized; a Cloid hashes by
object identity), as is the hash of None. -/
def orderHashLanes (o : Order) (hNone hSymbol hClientOrderId : ℕ) : List ℕ :=
  [hSymbol,
    pyHashInt o.side,
    pyHashOptInt hNone o.orderType,
    pyHashOptInt hNone o.timeInForce,
    pyHashOptRatFloat hNone o.price,
    pyHashRatFloat o.size,
    pyHashOptInt hNone o.orderId,
    hClientOrderId,
    pyHashOptInt hNone o.currentStatus,
    pyHashRatFloat o.timestamp]

/-- Order.__hash__ under the CPython tuple-hash model. -/
def orderPyHash (o : Order) (hNone hSymbol hClientOrderId : ℕ) : ℕ :=
  pyTupleHash (orderHashLanes o hNone hSymbol hClientOrderId)

/-- The first of the two orders: the empty symbol (whose CPython hash is 0 on
every run), integral float price, size and timestamp, venue order id 1. -/
def c10Order1 : Order :=
  { symbol := "", side := 1, size := 1, orderType := some OrderType.LIMIT,
    timeInForce := some TimeInForce.GTC, timestamp := 0,
    currentStatus := some OrderStatus.IN_FLIGHT, price := some 100,
    orderId := some 1, clientOrderId := some ⟨5⟩, triggerPrice := none,
    reduceOnly := false }

/-- The second order: identical except for the venue order id 2, a field
Order.__eq__ deliberately ignores. -/
def c10Order2 : Order :=
  { c10Order1 with orderId := some 2 }

/-! ## Theorems -/

/-- C1 counterexample: starting from a snapshot with bids 100, 99 and asks
101, 103, the delta that removes the 99 bid and inserts a bid at 102 is
applied as-is; nothing prunes the crossed ask at 101, and the book is left
with best bid 102 above best ask 101 although both sides hold a level of
positive size. -/
theorem orderbook_cross_not_pruned :
    crossBook1.bids ≠ [] ∧ crossBook1.asks ≠ [] ∧
    (∀ r ∈ crossBook1.bids, 0 < r.size) ∧ (∀ r ∈ crossBook1.asks, 0 < r.size) ∧
    crossBook1.bbaBid.price = 102 ∧ crossBook1.bbaAsk.price = 101 ∧
    ¬ crossBook1.bbaBid.price < crossBook1.bbaAsk.price := by
  decide

/-- C1 amended: update_bids and update_asks only modify their own side of the
book; the opposite side's array and its best-bid-and-ask cache entry are left
untouched, so no pruning of crossed levels ever happens and a crossing delta
leaves the book crossed. -/
theorem orderbook_update_leaves_opposite_side
    (ob : Orderbook) (rows : List BookRow) (ts : ℚ) (sq : ℤ) :
    ((ob.updateBids rows ts sq).asks = ob.asks ∧
      (ob.updateBids rows ts sq).bbaAsk = ob.bbaAsk) ∧
    ((ob.updateAsks rows ts sq).bids = ob.bids ∧
      (ob.updateAsks rows ts sq).bbaBid = ob.bbaBid) := by
  refine ⟨⟨?_, ?_⟩, ⟨?_, ?_⟩⟩ <;> by_cases h : rows = [] <;>
    simp [Orderbook.updateBids, Orderbook.updateAsks, Orderbook.sortBids,
      Orderbook.sortAsks, h]

/-- The top of wmidBook after the refresh: best bid (100, 3), best ask (101, 1). -/
theorem wmidBook_bba : wmidBook.bbaBid = ⟨100, 3⟩ ∧ wmidBook.bbaAsk = ⟨101, 1⟩ := by
  decide

/-- C8 counterexample: with best bid (100, size 3) and best ask (101, size 1),
the source's wmid is 100.25 (it weights the best bid by the bid size), while
the spec's formula bestBid*(askSize/total) + bestAsk*(bidSize/total) gives
100.75; the two disagree. -/
theorem wmid_differs_from_spec_formula :
    0 < wmidBook.bbaBid.size + wmidBook.bbaAsk.size ∧
    wmidBook.wmid = 401 / 4 ∧ specWmid wmidBook = 403 / 4 ∧
    wmidBook.wmid ≠ specWmid wmidBook := by
  have h1 := wmidBook_bba.1
  have h2 := wmidBook_bba.2
  refine ⟨?_, ?_, ?_, ?_⟩ <;> norm_num [Orderbook.wmid, specWmid, h1, h2]

/-- C8 amended: whenever bidSize + askSize is non-zero, wmid equals
bestBid*(bidSize/(bidSize+askSize)) + bestAsk*(askSize/(bidSize+askSize)) -
each best price weighted by its own side's size, the mirror image of the
spec's formula. -/
theorem wmid_weights_own_side (ob : Orderbook)
    (h : ob.bbaBid.size + ob.bbaAsk.size ≠ 0) :
    ob.wmid =
      ob.bbaBid.price * (ob.bbaBid.size / (ob.bbaBid.size + ob.bbaAsk.size)) +
        ob.bbaAsk.price * (ob.bbaAsk.size / (ob.bbaBid.size + ob.bbaAsk.size)) := by
  unfold Orderbook.wmid
  field_simp

/-- Witness for the C8 amended theorem at the concrete imbalanced book. -/
theorem wmid_weights_own_side_witness :
    wmidBook.wmid =
      wmidBook.bbaBid.price *
          (wmidBook.bbaBid.size / (wmidBook.bbaBid.size + wmidBook.bbaAsk.size)) +
        wmidBook.bbaAsk.price *
          (wmidBook.bbaAsk.size / (wmidBook.bbaBid.size + wmidBook.bbaAsk.size)) :=
  wmid_weights_own_side wmidBook
    (by rw [wmidBook_bba.1, wmidBook_bba.2]; norm_num)

theorem PyDict.get?_eraseKey_self {K V : Type} [DecidableEq K]
    (d : PyDict K V) (k : K) : (d.eraseKey k).get? k = none := by
  induction d with
  | nil => rfl
  | cons p d ih =>
    by_cases h : p.1 = k
    · simpa [PyDict.eraseKey, List.filter, h] using ih
    · simpa [PyDict.eraseKey, List.filter, h, PyDict.get?] using ih

theorem PyDict.holdsKey_eraseKey_self {K V : Type} [DecidableEq K]
    (d : PyDict K V) (k : K) : (d.eraseKey k).holdsKey k = false := by
  simp [PyDict.holdsKey, PyDict.get?_eraseKey_self]

theorem PyDict.eraseKey_of_not_holdsKey {K V : Type} [DecidableEq K]
    (d : PyDict K V) (k : K)
    (h : d.holdsKey k = false) : d.eraseKey k = d := by
  induction d with
  | nil => rfl
  | cons p d ih =>
    by_cases hp : p.1 = k
    · simp [PyDict.holdsKey, PyDict.get?, hp] at h
    · simp only [PyDict.holdsKey, PyDict.get?, hp, if_neg] at h
      simp [PyDict.eraseKey, List.filter, hp, List.filter_eq_self]
      have := ih (by simpa [PyDict.holdsKey] using h)
      simpa [PyDict.eraseKey] using this

theorem Cloid.toInt_fromInt (i : ℤ) (h : -(2 ^ 127) ≤ i) (h2 : i < 2 ^ 127) :
    (fromInt i).toInt = i := by
  unfold Cloid.fromInt Cloid.toInt
  split <;> rename_i hi <;> simp only <;> split <;> omega

set_option maxRecDepth 8000 in
/-- C2 counterexample: a fresh generator (setLevels 3) asked for level -1
produces the id -10^7 - 1 = -10000001, whose floor division by 10^7 is -2,
not the original level -1; and -2 * 10^7 plus the observed per-level sequence
-1 is -20000001, not the id. -/
theorem orderid_negative_level_not_reversible :
    ((HlOrderIdGenerator.setLevels 3).generateOrderId (-1)).map
        (fun p => HlOrderIdGenerator.matchLevel p.1) = Except.ok (-2) ∧
    ((HlOrderIdGenerator.setLevels 3).generateOrderId (-1)).map
        (fun p => p.1.toInt) = Except.ok (-10000001) ∧
    ((HlOrderIdGenerator.setLevels 3).generateOrderId (-1)).map
        (fun p => p.2.levelDict.get? (-(10 ^ 7))) = Except.ok (some (-1)) ∧
    ((HlOrderIdGenerator.setLevels 3).generateOrderId (-1)).map
        (fun p => HlOrderIdGenerator.matchLevel p.1) ≠ Except.ok (-1) ∧
    (-2 : ℤ) * 10 ^ 7 + (-1) ≠ (-10000001 : ℤ) := by
  decide

/-- C2 amended: match_level inverts the generator only on the non-negative
levels: when the level counter c is in the representable range, the id
generated for a level L ≥ 0 decodes back to L, while the id generated for a
level L < 0 decodes to L - 1 (the sequence part is negative, so Python floor
division rounds past the level). -/
theorem orderid_matchLevel_of_generate (g : HlOrderIdGenerator) (level c : ℤ)
    (hget : g.levelDict.get? (level * 10 ^ 7) = some c)
    (hpos : 0 ≤ level → 0 ≤ c ∧ level * 10 ^ 7 + (c + 1) < 2 ^ 127 ∧ c + 1 < 10 ^ 7)
    (hneg : level < 0 → c ≤ 0 ∧ -(10 ^ 7) < c - 1 ∧ -(2 ^ 127) ≤ level * 10 ^ 7 + (c - 1)) :
    (g.generateOrderId level).map (fun p => HlOrderIdGenerator.matchLevel p.1) =
      Except.ok (if 0 ≤ level then level else level - 1) := by
  simp only [HlOrderIdGenerator.generateOrderId, PyDict.getE, hget, bind, Except.bind,
    Except.map, pure, Except.pure, Except.ok.injEq]
  by_cases hl : 0 ≤ level
  · obtain ⟨hc, hlt, hseq⟩ := hpos hl
    have hln : 0 ≤ level * 10 ^ 7 := mul_nonneg hl (by norm_num)
    rw [if_pos hln, if_pos hl]
    unfold HlOrderIdGenerator.matchLevel
    rw [Cloid.toInt_fromInt _ (by omega) (by omega),
      Int.fdiv_eq_ediv _ (by norm_num)]
    omega
  · have hl' : level < 0 := by omega
    obtain ⟨hc, hlo, hhi⟩ := hneg hl'
    have hln : level * 10 ^ 7 < 0 :=
      mul_neg_of_neg_of_pos hl' (by norm_num)
    rw [if_neg (by omega), if_neg hl]
    unfold HlOrderIdGenerator.matchLevel
    rw [Cloid.toInt_fromInt _ (by omega) (by omega),
      Int.fdiv_eq_ediv _ (by norm_num)]
    omega

/-- Witness for the C2 amended theorem: a fresh generator at level -1
(counter 0) decodes to -2 = -1 - 1. -/
theorem orderid_matchLevel_of_generate_witness :
    ((HlOrderIdGenerator.setLevels 3).generateOrderId (-1)).map
        (fun p => HlOrderIdGenerator.matchLevel p.1) =
      Except.ok (if 0 ≤ (-1 : ℤ) then (-1 : ℤ) else (-1 : ℤ) - 1) :=
  orderid_matchLevel_of_generate (HlOrderIdGenerator.setLevels 3) (-1) 0
    (by decide) (by omega) (by intro h; refine ⟨le_refl 0, by norm_num, by norm_num⟩)

/-- C3: processing a fill sequence whose signed sum is zero does reset the
position, and afterwards size = 0, side = None and openTime = now hold - but
entryPrice is still the stale 100, not None: Position.reset assigns the
stray, never-read _price attribute instead of _entryPrice. -/
theorem position_reset_keeps_entry_price :
    (hlProcessFills "ETH" 100 99 c3Pos [c3Fill]).map
        (fun p => (p.size, p.side, p.openTime, p.entryPrice)) =
      Except.ok ((0 : ℚ), (none : Option ℤ), some (99 : ℚ), some (100 : ℚ)) ∧
    (some (100 : ℚ) : Option ℚ) ≠ none := by
  constructor
  · simp +decide only [hlProcessFills, hlProcessFill, hlSideToNum, hlEpsilon,
      Position.reset, c3Pos, c3Fill]
    norm_num
    rfl
  · simp

/-- C4 counterexample: replaying a "triggered" event raises KeyError (the
branch indexes to_be_triggered without checking membership, and the first
processing emptied it), and likewise replaying a "filled" event raises
KeyError on in_the_book; processing the same event a second time does raise. -/
theorem orders_replay_raises :
    exceptOk (hlOrdersProcessEvent "ETH" c4Store Flags.clear c4TriggeredEv) = true ∧
    (hlOrdersProcessEvent "ETH" c4Store Flags.clear c4TriggeredEv).bind
        (fun r => hlOrdersProcessEvent "ETH" r.1 r.2 c4TriggeredEv) =
      Except.error "KeyError" ∧
    exceptOk (hlOrdersProcessEvent "ETH" c4BookStore Flags.clear c4FilledEv) = true ∧
    (hlOrdersProcessEvent "ETH" c4BookStore Flags.clear c4FilledEv).bind
        (fun r => hlOrdersProcessEvent "ETH" r.1 r.2 c4FilledEv) =
      Except.error "KeyError" := by
  decide

theorem PyDict.holdsKey_mapAt {K V : Type} [DecidableEq K] (d : PyDict K V)
    (k k0 : K) (f : V → V) : (d.mapAt k f).holdsKey k0 = d.holdsKey k0 := by
  induction d with
  | nil => rfl
  | cons p d ih =>
    by_cases hp : p.1 = k
    · by_cases hp0 : p.1 = k0
      · have hkk : k = k0 := by rw [← hp, hp0]
        simp [PyDict.mapAt, PyDict.holdsKey, PyDict.get?, hp, hp0, hkk]
      · have hkk : ¬ k = k0 := by rw [← hp]; exact hp0
        simpa [PyDict.mapAt, PyDict.holdsKey, PyDict.get?, hp, hkk] using ih
    · by_cases hp0 : p.1 = k0
      · have hkk : ¬ k0 = k := by rw [← hp0]; exact hp
        simp [PyDict.mapAt, PyDict.holdsKey, PyDict.get?, hp, hp0, hkk]
      · simpa [PyDict.mapAt, PyDict.holdsKey, PyDict.get?, hp, hp0] using ih

theorem PyDict.exists_get?_of_holdsKey {K V : Type} [DecidableEq K]
    (d : PyDict K V) (k : K) (h : d.holdsKey k = true) :
    ∃ v, d.get? k = some v := by
  unfold PyDict.holdsKey at h
  exact Option.isSome_iff_exists.mp h

theorem hlOrdersDropIntents_to_create (st : OrderStore) (k : DictKey) :
    (hlOrdersDropIntents st k).to_create.holdsKey k = false := by
  unfold hlOrdersDropIntents
  by_cases h : st.to_create.holdsKey k
  · simp [h, PyDict.holdsKey_eraseKey_self]
  · by_cases h2 : st.to_amend.holdsKey k <;> simp [h, h2]

theorem hlOrdersDropIntents_to_amend (st : OrderStore) (k : DictKey)
    (h1 : ¬(st.to_create.holdsKey k = true ∧ st.to_amend.holdsKey k = true)) :
    (hlOrdersDropIntents st k).to_amend.holdsKey k = false := by
  unfold hlOrdersDropIntents
  by_cases h : st.to_create.holdsKey k
  · have h2 : st.to_amend.holdsKey k = false := by
      rcases Bool.eq_false_or_eq_true (st.to_amend.holdsKey k) with h2 | h2
      · exact absurd ⟨h, h2⟩ h1
      · exact h2
    simp [h, h2]
  · by_cases h2 : st.to_amend.holdsKey k
    · simp [h, h2, PyDict.holdsKey_eraseKey_self]
    · simp [h, h2]

theorem hlOrdersDropIntents_rest (st : OrderStore) (k : DictKey) :
    (hlOrdersDropIntents st k).to_cancel = st.to_cancel ∧
    (hlOrdersDropIntents st k).tp = st.tp ∧
    (hlOrdersDropIntents st k).sl = st.sl ∧
    (hlOrdersDropIntents st k).in_flight = st.in_flight ∧
    (hlOrdersDropIntents st k).to_be_triggered = st.to_be_triggered ∧
    (hlOrdersDropIntents st k).in_the_book = st.in_the_book ∧
    (hlOrdersDropIntents st k).recently_cancelled = st.recently_cancelled := by
  unfold hlOrdersDropIntents
  by_cases h : st.to_create.holdsKey k
  · simp [h]
  · by_cases h2 : st.to_amend.holdsKey k <;> simp [h, h2]

theorem hlOrdersDropTags_tp (st : OrderStore) (k : DictKey) :
    (hlOrdersDropTags st k).tp.holdsKey k = false := by
  unfold hlOrdersDropTags
  by_cases h : st.tp.holdsKey k
  · simp [h, PyDict.holdsKey_eraseKey_self]
  · by_cases h2 : st.sl.holdsKey k <;> simp [h, h2]

theorem hlOrdersDropTags_sl (st : OrderStore) (k : DictKey)
    (h2 : ¬(st.tp.holdsKey k = true ∧ st.sl.holdsKey k = true)) :
    (hlOrdersDropTags st k).sl.holdsKey k = false := by
  unfold hlOrdersDropTags
  by_cases h : st.tp.holdsKey k
  · have hsl : st.sl.holdsKey k = false := by
      rcases Bool.eq_false_or_eq_true (st.sl.holdsKey k) with hs | hs
      · exact absurd ⟨h, hs⟩ h2
      · exact hs
    simp [h, hsl]
  · by_cases hs : st.sl.holdsKey k
    · simp [h, hs, PyDict.holdsKey_eraseKey_self]
    · simp [h, hs]

theorem hlOrdersDropTags_rest (st : OrderStore) (k : DictKey) :
    (hlOrdersDropTags st k).to_create = st.to_create ∧
    (hlOrdersDropTags st k).to_amend = st.to_amend ∧
    (hlOrdersDropTags st k).to_cancel = st.to_cancel ∧
    (hlOrdersDropTags st k).in_flight = st.in_flight ∧
    (hlOrdersDropTags st k).to_be_triggered = st.to_be_triggered ∧
    (hlOrdersDropTags st k).in_the_book = st.in_the_book ∧
    (hlOrdersDropTags st k).recently_cancelled = st.recently_cancelled := by
  unfold hlOrdersDropTags
  by_cases h : st.tp.holdsKey k
  · simp [h]
  · by_cases h2 : st.sl.holdsKey k <;> simp [h, h2]

theorem hlOrdersDropCancel_to_cancel (st : OrderStore) (k : DictKey) :
    (hlOrdersDropCancel st k).to_cancel.holdsKey k = false := by
  unfold hlOrdersDropCancel
  by_cases h : st.to_cancel.holdsKey k <;> simp [h, PyDict.holdsKey_eraseKey_self]

theorem hlOrdersDropCancel_rest (st : OrderStore) (k : DictKey) :
    (hlOrdersDropCancel st k).to_create = st.to_create ∧
    (hlOrdersDropCancel st k).to_amend = st.to_amend ∧
    (hlOrdersDropCancel st k).tp = st.tp ∧
    (hlOrdersDropCancel st k).sl = st.sl ∧
    (hlOrdersDropCancel st k).in_flight = st.in_flight ∧
    (hlOrdersDropCancel st k).to_be_triggered = st.to_be_triggered ∧
    (hlOrdersDropCancel st k).in_the_book = st.in_the_book ∧
    (hlOrdersDropCancel st k).recently_cancelled = st.recently_cancelled := by
  unfold hlOrdersDropCancel
  by_cases h : st.to_cancel.holdsKey k <;> simp [h]

/-- Dropping from the intent queues is a no-op on a store that does not hold
the key in either queue. -/
theorem hlOrdersDropIntents_noop (st : OrderStore) (k : DictKey)
    (h : st.to_create.holdsKey k = false) (h2 : st.to_amend.holdsKey k = false) :
    hlOrdersDropIntents st k = st := by
  unfold hlOrdersDropIntents
  simp [h, h2]

/-- Dropping the tags is a no-op on a store that does not hold the key in tp
or sl. -/
theorem hlOrdersDropTags_noop (st : OrderStore) (k : DictKey)
    (h : st.tp.holdsKey k = false) (h2 : st.sl.holdsKey k = false) :
    hlOrdersDropTags st k = st := by
  unfold hlOrdersDropTags
  simp [h, h2]

/-- Dropping from to_cancel is a no-op on a store that does not hold the key
there. -/
theorem hlOrdersDropCancel_noop (st : OrderStore) (k : DictKey)
    (h : st.to_cancel.holdsKey k = false) :
    hlOrdersDropCancel st k = st := by
  unfold hlOrdersDropCancel
  simp [h]

theorem PyDict.get?_eq_none_of_not_holdsKey {K V : Type} [DecidableEq K]
    (d : PyDict K V) (k : K) (h : d.holdsKey k = false) : d.get? k = none := by
  unfold PyDict.holdsKey at h
  cases hg : d.get? k with
  | none => rfl
  | some v => rw [hg] at h; simp at h

/-- Processing a rejected event is a no-op on a store that holds the event's
key in none of the partitions the rejected path touches. -/
theorem hlOrdersMain_rejected_noop (st : OrderStore) (fl : Flags)
    (ev : HlOrderEvent) (hstat : ev.status = "rejected")
    (hc1 : st.to_create.holdsKey ev.key = false)
    (hc2 : st.to_amend.holdsKey ev.key = false)
    (hc3 : st.tp.holdsKey ev.key = false)
    (hc4 : st.sl.holdsKey ev.key = false)
    (hc5 : st.to_cancel.holdsKey ev.key = false)
    (hc6 : st.in_flight.get? ev.key = none) :
    hlOrdersMain st fl ev = Except.ok (st, fl) := by
  simp only [hlOrdersMain, hstat]
  rw [hlOrdersDropIntents_noop st ev.key hc1 hc2,
    hlOrdersDropTags_noop st ev.key hc3 hc4,
    hlOrdersDropCancel_noop st ev.key hc5]
  simp [hlOrdersRejectedStep, hc6]

/-- The rejected step always leaves the key absent from in_flight. -/
theorem hlOrdersRejectedStep_in_flight (st : OrderStore) (k : DictKey) (ts : ℚ) :
    (hlOrdersRejectedStep st k ts).in_flight.get? k = none := by
  unfold hlOrdersRejectedStep
  cases hg : st.in_flight.get? k with
  | none => exact hg
  | some o => simp [OrderStore.mutateAll, PyDict.get?_eraseKey_self]

/-- The rejected step preserves key membership in the five partitions its
replay would consult. -/
theorem hlOrdersRejectedStep_holds (st : OrderStore) (k : DictKey) (ts : ℚ) :
    (hlOrdersRejectedStep st k ts).to_create.holdsKey k = st.to_create.holdsKey k ∧
    (hlOrdersRejectedStep st k ts).to_amend.holdsKey k = st.to_amend.holdsKey k ∧
    (hlOrdersRejectedStep st k ts).tp.holdsKey k = st.tp.holdsKey k ∧
    (hlOrdersRejectedStep st k ts).sl.holdsKey k = st.sl.holdsKey k ∧
    (hlOrdersRejectedStep st k ts).to_cancel.holdsKey k = st.to_cancel.holdsKey k := by
  unfold hlOrdersRejectedStep
  cases hg : st.in_flight.get? k with
  | none => simp
  | some o => simp [OrderStore.mutateAll, PyDict.holdsKey_mapAt]

/-- On a rejected event the main dispatch is the rejected step applied after
the three guarded drops. -/
theorem hlOrdersMain_rejected_eq (st : OrderStore) (fl : Flags)
    (ev : HlOrderEvent) (hstat : ev.status = "rejected") :
    hlOrdersMain st fl ev =
      Except.ok
        (hlOrdersRejectedStep
          (hlOrdersDropCancel (hlOrdersDropTags (hlOrdersDropIntents st ev.key) ev.key) ev.key)
          ev.key ev.statusTimestamp, fl) := by
  simp [hlOrdersMain, hstat]

set_option maxHeartbeats 1000000 in
theorem hlOrdersMain_rejected_replay (st : OrderStore) (fl : Flags)
    (ev : HlOrderEvent) (hstat : ev.status = "rejected")
    (h1 : ¬(st.to_create.holdsKey ev.key = true ∧ st.to_amend.holdsKey ev.key = true))
    (h2 : ¬(st.tp.holdsKey ev.key = true ∧ st.sl.holdsKey ev.key = true)) :
    (hlOrdersMain st fl ev).bind (fun r => hlOrdersMain r.1 r.2 ev) =
      hlOrdersMain st fl ev := by
  have f1 :
      (hlOrdersDropCancel (hlOrdersDropTags (hlOrdersDropIntents st ev.key) ev.key)
        ev.key).to_create.holdsKey ev.key = false := by
    rw [(hlOrdersDropCancel_rest _ _).1, (hlOrdersDropTags_rest _ _).1]
    exact hlOrdersDropIntents_to_create st ev.key
  have f2 :
      (hlOrdersDropCancel (hlOrdersDropTags (hlOrdersDropIntents st ev.key) ev.key)
        ev.key).to_amend.holdsKey ev.key = false := by
    rw [(hlOrdersDropCancel_rest _ _).2.1, (hlOrdersDropTags_rest _ _).2.1]
    exact hlOrdersDropIntents_to_amend st ev.key h1
  have f3 :
      (hlOrdersDropCancel (hlOrdersDropTags (hlOrdersDropIntents st ev.key) ev.key)
        ev.key).tp.holdsKey ev.key = false := by
    rw [(hlOrdersDropCancel_rest _ _).2.2.1]
    exact hlOrdersDropTags_tp _ _
  have f4 :
      (hlOrdersDropCancel (hlOrdersDropTags (hlOrdersDropIntents st ev.key) ev.key)
        ev.key).sl.holdsKey ev.key = false := by
    rw [(hlOrdersDropCancel_rest _ _).2.2.2.1]
    apply hlOrdersDropTags_sl
    intro hcon
    apply h2
    rwa [(hlOrdersDropIntents_rest st ev.key).2.1,
      (hlOrdersDropIntents_rest st ev.key).2.2.1] at hcon
  have f5 :
      (hlOrdersDropCancel (hlOrdersDropTags (hlOrdersDropIntents st ev.key) ev.key)
        ev.key).to_cancel.holdsKey ev.key = false :=
    hlOrdersDropCancel_to_cancel _ _
  rw [hlOrdersMain_rejected_eq st fl ev hstat]
  show hlOrdersMain _ fl ev = _
  apply hlOrdersMain_rejected_noop _ _ _ hstat
  · rw [(hlOrdersRejectedStep_holds _ _ _).1]; exact f1
  · rw [(hlOrdersRejectedStep_holds _ _ _).2.1]; exact f2
  · rw [(hlOrdersRejectedStep_holds _ _ _).2.2.1]; exact f3
  · rw [(hlOrdersRejectedStep_holds _ _ _).2.2.2.1]; exact f4
  · rw [(hlOrdersRejectedStep_holds _ _ _).2.2.2.2]; exact f5
  · exact hlOrdersRejectedStep_in_flight _ _ _

/-- C4 amended: the reducer is replay-idempotent only on the "rejected"
transition, whose lifecycle move is guarded by a membership check: processing
a rejected event twice equals processing it once (and the replay does not
raise), provided the key sits in at most one of the to_create / to_amend
intent queues and at most one of the tp / sl tag sets, as the source's
elif-chains assume. Replaying "triggered", "filled", "canceled" or
"marginCanceled" raises KeyError, and replaying "open" re-queues a remote
cancel instead of leaving the store unchanged. -/
theorem orders_rejected_replay_idempotent (symbol : String) (st : OrderStore)
    (fl : Flags) (ev : HlOrderEvent) (hstat : ev.status = "rejected")
    (h1 : ¬(st.to_create.holdsKey ev.key = true ∧ st.to_amend.holdsKey ev.key = true))
    (h2 : ¬(st.tp.holdsKey ev.key = true ∧ st.sl.holdsKey ev.key = true)) :
    (hlOrdersProcessEvent symbol st fl ev).bind
        (fun r => hlOrdersProcessEvent symbol r.1 r.2 ev) =
      hlOrdersProcessEvent symbol st fl ev := by
  by_cases hcoin : ev.coin = symbol
  · have hopen : ¬(ev.cloid = none ∧ ev.status = "open") := by simp [hstat]
    have hcanc : ¬(ev.cloid = none ∧ ev.status = "canceled") := by simp [hstat]
    have hfill : ¬(ev.cloid = none ∧ ev.status = "filled" ∧ ev.szStr = "0.0" ∧
        ev.reduceOnly) := by simp [hstat]
    have hne : ¬(ev.coin ≠ symbol) := by simp [hcoin]
    simp only [hlOrdersProcessEvent, if_neg hne, if_neg hopen, if_neg hcanc, if_neg hfill]
    exact hlOrdersMain_rejected_replay st fl ev hstat h1 h2
  · simp [hlOrdersProcessEvent, hcoin, bind, Except.bind]

/-- Witness for the C4 amended theorem at a concrete rejected event. -/
theorem orders_rejected_replay_idempotent_witness :
    (hlOrdersProcessEvent "ETH" c4RejStore Flags.clear c4RejEv).bind
        (fun r => hlOrdersProcessEvent "ETH" r.1 r.2 c4RejEv) =
      hlOrdersProcessEvent "ETH" c4RejStore Flags.clear c4RejEv :=
  orders_rejected_replay_idempotent "ETH" c4RejStore Flags.clear c4RejEv rfl
    (by decide) (by decide)

/-- C7: the out-of-bounds test computes distance = |proposal - mid| and
buffer = distance * 0.2, and the resting order is in bounds iff
|old - proposal| <= buffer; at resting 99.50, mid 100.10, proposal 99.70 the
distance is 0.40, the buffer 0.08, and |99.50 - 99.70| = 0.20 > 0.08, so the
old order is cancelled and the new one created. -/
theorem oms_out_of_bounds_test :
    (∀ mid oldPrice newPrice : ℚ,
      is_out_of_bounds_default mid oldPrice newPrice = false ↔
        |oldPrice - newPrice| ≤ |newPrice - mid| * (2 / 10)) ∧
    |(997 : ℚ) / 10 - 1001 / 10| = 4 / 10 ∧
    ((4 : ℚ) / 10) * (2 / 10) = 8 / 100 ∧
    |(199 : ℚ) / 2 - 997 / 10| = 2 / 10 ∧
    is_out_of_bounds_default (1001 / 10) (199 / 2) (997 / 10) = true ∧
    omsMatchedDecision (1001 / 10) (199 / 2) (997 / 10) = (true, true) := by
  refine ⟨?_, ?_, ?_, ?_, ?_, ?_⟩
  · intro mid oldPrice newPrice
    simp [is_out_of_bounds_default, is_out_of_bounds, not_lt]
  · rw [abs_of_neg (by norm_num)]; norm_num
  · norm_num
  · rw [abs_of_neg (by norm_num)]; norm_num
  · simp only [is_out_of_bounds_default, is_out_of_bounds]
    rw [abs_of_neg (by norm_num), abs_of_neg (by norm_num)]
    norm_num
  · have hc : |(199 : ℚ) / 2 - 997 / 10| > |(997 : ℚ) / 10 - 1001 / 10| * (2 / 10) := by
      rw [abs_of_neg (by norm_num), abs_of_neg (by norm_num)]
      norm_num
    simp [omsMatchedDecision, is_out_of_bounds_default, is_out_of_bounds, hc]

/-- C9: with parameters = { "sandbox": { } } (the active generator's dict
missing both max_position and total_orders), process_parameters returns
without raising: the guard required_keys > parameters.keys() compares the
required keys against the quote-generator names, and "sandbox" is not a
member of required_keys, so the strict-superset test is false and the
missing-key loop never runs. -/
theorem params_missing_required_not_fatal :
    processParametersCheck c9Params = Except.ok () ∧
    (c9Params.get? "sandbox").map
        (fun d => (d.holdsKey "max_position", d.holdsKey "total_orders")) =
      some (false, false) := by
  decide

/-- C6: for a long position (side BUY, size 0.5 > epsilon) with max_position
1, the guard (size - 0.0) < 1e-6 is false, so the bid budget is not reduced:
the code returns (1, 1) where the claim requires (max(0, 1 - 0.5), 1) =
(0.5, 1). The symmetric short position does get its ask budget reduced. -/
theorem stinky_budgets_long_not_reduced :
    generateStinkyBudgets (some Side.BUY) (1 / 2) 1 = (1, 1) ∧
    (generateStinkyBudgets (some Side.BUY) (1 / 2) 1).1 ≠ max 0 (1 - |(1 : ℚ) / 2|) ∧
    generateStinkyBudgets (some Side.SELL) (-(1 / 2)) 1 = (1, max 0 (1 - |(-(1 : ℚ) / 2)|)) := by
  refine ⟨?_, ?_, ?_⟩
  · norm_num [generateStinkyBudgets]
  · norm_num [generateStinkyBudgets, abs_of_pos]
  · norm_num [generateStinkyBudgets, Side.SELL, Side.BUY]

theorem PyDict.get?_setMap {K V : Type} [DecidableEq K] (d : PyDict K V)
    (k : K) (v : V) (h : PyDict.holdsKey d k = true) :
    PyDict.get? (List.map (fun p => if p.1 = k then (k, v) else p) d) k = some v := by
  induction d with
  | nil => simp [PyDict.holdsKey, PyDict.get?] at h
  | cons p d ih =>
    by_cases hp : p.1 = k
    · simp [PyDict.get?, hp]
    · have hd : PyDict.holdsKey d k = true := by
        simpa [PyDict.holdsKey, PyDict.get?, hp] using h
      simpa [PyDict.get?, hp] using ih hd

theorem PyDict.get?_appendSingle {K V : Type} [DecidableEq K] (d : PyDict K V)
    (k : K) (v : V) (h : PyDict.holdsKey d k = false) :
    PyDict.get? (d ++ [(k, v)]) k = some v := by
  induction d with
  | nil => simp [PyDict.get?]
  | cons p d ih =>
    by_cases hp : p.1 = k
    · simp [PyDict.holdsKey, PyDict.get?, hp] at h
    · have hd : PyDict.holdsKey d k = false := by
        simpa [PyDict.holdsKey, PyDict.get?, hp] using h
      simpa [PyDict.get?, hp] using ih hd

theorem PyDict.get?_set_self {K V : Type} [DecidableEq K] (d : PyDict K V)
    (k : K) (v : V) : (d.set k v).get? k = some v := by
  unfold PyDict.set
  by_cases h : d.holdsKey k
  · simp only [h, if_true]
    exact PyDict.get?_setMap d k v h
  · simp only [Bool.not_eq_true] at h
    simp only [h, Bool.false_eq_true, if_false]
    exact PyDict.get?_appendSingle d k v h

set_option maxHeartbeats 1000000 in
/-- The liquidation-timer wake in closed form: with a live position, no
previous take profit and the timer expired, exactly the market order is
queued to to_create. -/
theorem sandboxWakeLiquidationEq (symbol : String)
    (takeProfit liquidationTimer lotSize : ℚ) (pos : Position)
    (st0 : OrderStore) (fl0 : Flags) (gen0 : HlOrderIdGenerator) (now : ℚ)
    (e t : ℚ) (c0 : ℤ)
    (hsz : |pos.size - 0| > 1 / 1000000)
    (hentry : pos.entryPrice = some e)
    (hopen : pos.openTime = some t)
    (htimer : now - t ≥ liquidationTimer)
    (htp : st0.tp = [])
    (hgen : gen0.levelDict.get? 0 = some c0) :
    sandboxExecutorWake symbol takeProfit liquidationTimer lotSize pos st0 fl0 gen0 now =
      Except.ok
        ({ st0 with
            tp := st0.tp.set (DictKey.cloid (Cloid.fromInt (c0 + 2)))
              (generate_single_quote symbol
                (if pos.size > 0 then Side.SELL else Side.BUY)
                OrderType.MARKET TimeInForce.FOK 0
                (round_discrete |pos.size| lotSize) (Cloid.fromInt (c0 + 2)) none
                false now)
            to_create := st0.to_create.set (DictKey.cloid (Cloid.fromInt (c0 + 2)))
              (generate_single_quote symbol
                (if pos.size > 0 then Side.SELL else Side.BUY)
                OrderType.MARKET TimeInForce.FOK 0
                (round_discrete |pos.size| lotSize) (Cloid.fromInt (c0 + 2)) none
                false now) },
          { fl0 with to_create := true, position := false },
          { gen0 with
              levelDict := (gen0.levelDict.set 0 (c0 + 1)).set 0 (c0 + 2) }) := by
  have hzm : (0 : ℤ) * 10 ^ 7 = 0 := by ring
  have htpsz : st0.tp.size = 0 := by rw [htp]; rfl
  have hres : sandboxResolveTp st0 fl0 = Except.ok (Sum.inl (none, st0, fl0)) := by
    unfold sandboxResolveTp
    rw [htpsz]
    simp
  have hg1 : gen0.generateOrderId 0 =
      Except.ok (Cloid.fromInt (c0 + 1),
        { gen0 with levelDict := gen0.levelDict.set 0 (c0 + 1) }) := by
    unfold HlOrderIdGenerator.generateOrderId
    simp [hzm, PyDict.getE, hgen, bind, Except.bind, pure, Except.pure]
  have hg2 : ({ gen0 with levelDict := gen0.levelDict.set 0 (c0 + 1)}
        : HlOrderIdGenerator).generateOrderId 0 =
      Except.ok (Cloid.fromInt (c0 + 2),
        { gen0 with levelDict := (gen0.levelDict.set 0 (c0 + 1)).set 0 (c0 + 2) }) := by
    unfold HlOrderIdGenerator.generateOrderId
    simp [hzm, PyDict.getE, PyDict.get?_set_self, bind, Except.bind, pure, Except.pure]
    constructor
    · ring_nf
    · ring_nf
  simp only [sandboxExecutorWake, hentry]
  rw [if_pos hsz]
  simp only [hres, htpsz, bind, Except.bind]
  simp only [hg1]
  simp only [hopen]
  rw [if_pos htimer]
  simp only [hg2, sandboxDispatch, bind, Except.bind, List.foldlM]
  simp [pure, Except.pure, generate_single_quote]

/-- C5 amended: when the executor wakes with a live position (|size| >
epsilon, entry price and open time set), no previous take profit outstanding,
and the liquidation timer expired, the take-profit plan is discarded and
exactly one MARKET order is queued to to_create (nothing to to_amend, the
to_create flag set, the position flag cleared): that order closes the
position (sell a long, buy a short), is FOK at price 0, sized
round_discrete(|size|, lot_size) - and carries reduceOnly = False, not the
reduce-only flag the claim asserts. -/
theorem sandbox_liquidation_market_order (symbol : String)
    (takeProfit liquidationTimer lotSize : ℚ) (pos : Position)
    (st0 : OrderStore) (fl0 : Flags) (gen0 : HlOrderIdGenerator) (now : ℚ)
    (e t : ℚ) (c0 : ℤ)
    (hsz : |pos.size - 0| > 1 / 1000000)
    (hentry : pos.entryPrice = some e)
    (hopen : pos.openTime = some t)
    (htimer : now - t ≥ liquidationTimer)
    (htp : st0.tp = [])
    (hgen : gen0.levelDict.get? 0 = some c0) :
    sandboxExecutorWake symbol takeProfit liquidationTimer lotSize pos st0 fl0 gen0 now =
      Except.ok
        ({ st0 with
            tp := st0.tp.set (DictKey.cloid (Cloid.fromInt (c0 + 2)))
              (generate_single_quote symbol
                (if pos.size > 0 then Side.SELL else Side.BUY)
                OrderType.MARKET TimeInForce.FOK 0
                (round_discrete |pos.size| lotSize) (Cloid.fromInt (c0 + 2)) none
                false now)
            to_create := st0.to_create.set (DictKey.cloid (Cloid.fromInt (c0 + 2)))
              (generate_single_quote symbol
                (if pos.size > 0 then Side.SELL else Side.BUY)
                OrderType.MARKET TimeInForce.FOK 0
                (round_discrete |pos.size| lotSize) (Cloid.fromInt (c0 + 2)) none
                false now) },
          { fl0 with to_create := true, position := false },
          { gen0 with
              levelDict := (gen0.levelDict.set 0 (c0 + 1)).set 0 (c0 + 2) }) :=
  sandboxWakeLiquidationEq symbol takeProfit liquidationTimer lotSize pos st0 fl0
    gen0 now e t c0 hsz hentry hopen htimer htp hgen

/-- Witness for the C5 amended theorem: the spec's liquidation scenario
(position of size 0.5 opened at t = 0, wake at liquidation_timer + 1 ms). -/
theorem sandbox_liquidation_market_order_witness :
    sandboxExecutorWake "ETH" 50 60000 (1 / 10) c5Pos OrderStore.empty
        Flags.clear (HlOrderIdGenerator.setLevels 3) 60001 =
      Except.ok
        ({ OrderStore.empty with
            tp := OrderStore.empty.tp.set (DictKey.cloid (Cloid.fromInt (0 + 2)))
              (generate_single_quote "ETH"
                (if c5Pos.size > 0 then Side.SELL else Side.BUY)
                OrderType.MARKET TimeInForce.FOK 0
                (round_discrete |c5Pos.size| (1 / 10)) (Cloid.fromInt (0 + 2)) none
                false 60001)
            to_create := OrderStore.empty.to_create.set
              (DictKey.cloid (Cloid.fromInt (0 + 2)))
              (generate_single_quote "ETH"
                (if c5Pos.size > 0 then Side.SELL else Side.BUY)
                OrderType.MARKET TimeInForce.FOK 0
                (round_discrete |c5Pos.size| (1 / 10)) (Cloid.fromInt (0 + 2)) none
                false 60001) },
          { Flags.clear with to_create := true, position := false },
          { HlOrderIdGenerator.setLevels 3 with
              levelDict :=
                ((HlOrderIdGenerator.setLevels 3).levelDict.set 0 (0 + 1)).set 0
                  (0 + 2) }) :=
  sandbox_liquidation_market_order "ETH" 50 60000 (1 / 10) c5Pos
    OrderStore.empty Flags.clear (HlOrderIdGenerator.setLevels 3) 60001 100 0 0
    (by show |(1 : ℚ) / 2 - 0| > 1 / 1000000
        rw [abs_of_pos] <;> norm_num)
    rfl rfl (by norm_num) rfl (by decide)

/-- C5 counterexample: in the spec's liquidation scenario (size 0.5 opened at
t = 0, wake at liquidation_timer + 1 ms, no previous TP), to_create receives
exactly one order and it is a MARKET FOK order with reduceOnly = False -
not a reduce-only order as the claim states - and to_amend stays empty. -/
theorem sandbox_liquidation_order_not_reduce_only :
    (sandboxExecutorWake "ETH" 50 60000 (1 / 10) c5Pos OrderStore.empty
          Flags.clear (HlOrderIdGenerator.setLevels 3) 60001).map
        (fun r => ((PyDict.values r.1.to_create).map
            (fun o => (o.orderType, o.timeInForce, o.reduceOnly)),
          r.1.to_amend)) =
      Except.ok ([(some OrderType.MARKET, some TimeInForce.FOK, false)], []) ∧
    ¬ ((sandboxExecutorWake "ETH" 50 60000 (1 / 10) c5Pos OrderStore.empty
          Flags.clear (HlOrderIdGenerator.setLevels 3) 60001).map
        (fun r => (PyDict.values r.1.to_create).all (fun o => o.reduceOnly)) =
      Except.ok true) := by
  have h := sandboxWakeLiquidationEq "ETH" 50 60000 (1 / 10) c5Pos
    OrderStore.empty Flags.clear (HlOrderIdGenerator.setLevels 3) 60001 100 0 0
    (by show |(1 : ℚ) / 2 - 0| > 1 / 1000000
        rw [abs_of_pos] <;> norm_num)
    rfl rfl (by norm_num) rfl (by decide)
  rw [h]
  constructor
  · simp [Except.map, PyDict.values, PyDict.set, PyDict.holdsKey, PyDict.get?,
      OrderStore.empty, generate_single_quote]
  · simp [Except.map, PyDict.values, PyDict.set, PyDict.holdsKey, PyDict.get?,
      OrderStore.empty, generate_single_quote]

theorem rotl31_lt (x : ℕ) (h : x < 2 ^ 64) : rotl31 x < 2 ^ 64 := by
  unfold rotl31
  have h1 : x % 2 ^ 33 < 2 ^ 33 := Nat.mod_lt _ (by norm_num)
  have h2 : x / 2 ^ 33 < 2 ^ 31 := by omega
  omega

theorem rotl31_inj (x y : ℕ) (hx : x < 2 ^ 64) (hy : y < 2 ^ 64)
    (h : rotl31 x = rotl31 y) : x = y := by
  unfold rotl31 at h
  have d1 := Nat.div_add_mod x (2 ^ 33)
  have d2 := Nat.div_add_mod y (2 ^ 33)
  have m1 : x % 2 ^ 33 < 2 ^ 33 := Nat.mod_lt _ (by norm_num)
  have m2 : y % 2 ^ 33 < 2 ^ 33 := Nat.mod_lt _ (by norm_num)
  have q1 : x / 2 ^ 33 < 2 ^ 31 := by omega
  have q2 : y / 2 ^ 33 < 2 ^ 31 := by omega
  omega

theorem mulXxPrime1_mod_inj (u v : ℕ) (hu : u < 2 ^ 64) (hv : v < 2 ^ 64)
    (h : u * xxPrime1 % 2 ^ 64 = v * xxPrime1 % 2 ^ 64) : u = v := by
  have hodd : Odd xxPrime1 := by
    rw [Nat.odd_iff]
    rfl
  have hcop : Nat.gcd (2 ^ 64) xxPrime1 = 1 :=
    Nat.Coprime.pow_left 64 (Nat.coprime_two_left.mpr hodd)
  have hme : u ≡ v [MOD 2 ^ 64] :=
    Nat.ModEq.cancel_right_of_coprime hcop h
  unfold Nat.ModEq at hme
  omega

theorem pyHashRound_lt (acc lane : ℕ) : pyHashRound acc lane < 2 ^ 64 := by
  unfold pyHashRound
  exact Nat.mod_lt _ (by norm_num)

theorem pyHashRound_inj (lane a b : ℕ) (ha : a < 2 ^ 64) (hb : b < 2 ^ 64)
    (hne : a ≠ b) : pyHashRound a lane ≠ pyHashRound b lane := by
  intro h
  unfold pyHashRound at h
  have hx : (a + lane * xxPrime2) % 2 ^ 64 < 2 ^ 64 := Nat.mod_lt _ (by norm_num)
  have hy : (b + lane * xxPrime2) % 2 ^ 64 < 2 ^ 64 := Nat.mod_lt _ (by norm_num)
  have h2 := mulXxPrime1_mod_inj _ _ (rotl31_lt _ hx) (rotl31_lt _ hy) h
  have h3 := rotl31_inj _ _ hx hy h2
  omega

/-- Folding equal lanes from distinct in-range accumulators keeps the
accumulators distinct and in range. -/
theorem foldRounds_inj (l : List ℕ) (a b : ℕ) (ha : a < 2 ^ 64)
    (hb : b < 2 ^ 64) (hne : a ≠ b) :
    l.foldl pyHashRound a ≠ l.foldl pyHashRound b ∧
    l.foldl pyHashRound a < 2 ^ 64 ∧ l.foldl pyHashRound b < 2 ^ 64 := by
  induction l generalizing a b with
  | nil => exact ⟨hne, ha, hb⟩
  | cons x l ih =>
    exact ih (pyHashRound a x) (pyHashRound b x) (pyHashRound_lt a x)
      (pyHashRound_lt b x) (pyHashRound_inj x a b ha hb hne)

set_option maxRecDepth 4000 in
/-- C10: the two orders compare equal under Order.__eq__ (symbol, side,
orderType, timeInForce, price, size all match) yet their hashes differ for
every value of the run-dependent Cloid lane, because the hash tuple also
contains the orderId: the accumulators diverge at the orderId lane and every
later tuple-hash step is injective. The two hypotheses exclude CPython's
reserved hash value -1, whose fixup is the single collision of the
combiner (the witness checks them at a concrete lane). -/
theorem order_eq_does_not_determine_hash (hNone hCloid : ℕ)
    (hraw1 : pyTupleHashRaw (orderHashLanes c10Order1 hNone 0 hCloid) ≠ 2 ^ 64 - 1)
    (hraw2 : pyTupleHashRaw (orderHashLanes c10Order2 hNone 0 hCloid) ≠ 2 ^ 64 - 1) :
    Order.eqv c10Order1 c10Order2 = true ∧
    c10Order1.orderId ≠ c10Order2.orderId ∧
    orderPyHash c10Order1 hNone 0 hCloid ≠ orderPyHash c10Order2 hNone 0 hCloid := by
  refine ⟨by decide, by decide, ?_⟩
  have hlanes1 : orderHashLanes c10Order1 hNone 0 hCloid =
      [0, 1, 0, 0, 100, 1, 1] ++ [hCloid, 0, 0] := by
    simp [orderHashLanes, c10Order1, c10Order2, pyHashInt, pyHashOptInt,
      pyHashRatFloat, pyHashOptRatFloat, OrderType.LIMIT, TimeInForce.GTC,
      OrderStatus.IN_FLIGHT]
    decide
  have hlanes2 : orderHashLanes c10Order2 hNone 0 hCloid =
      [0, 1, 0, 0, 100, 1, 2] ++ [hCloid, 0, 0] := by
    simp [orderHashLanes, c10Order1, c10Order2, pyHashInt, pyHashOptInt,
      pyHashRatFloat, pyHashOptRatFloat, OrderType.LIMIT, TimeInForce.GTC,
      OrderStatus.IN_FLIGHT]
    decide
  have hpref :
      List.foldl pyHashRound xxPrime5 [0, 1, 0, 0, 100, 1, 1] ≠
        List.foldl pyHashRound xxPrime5 [0, 1, 0, 0, 100, 1, 2] ∧
      List.foldl pyHashRound xxPrime5 [0, 1, 0, 0, 100, 1, 1] < 2 ^ 64 ∧
      List.foldl pyHashRound xxPrime5 [0, 1, 0, 0, 100, 1, 2] < 2 ^ 64 := by
    refine ⟨by decide, ?_, ?_⟩ <;> decide
  have hfold := foldRounds_inj [hCloid, 0, 0] _ _ hpref.2.1 hpref.2.2 hpref.1
  rw [hlanes1] at hraw1
  rw [hlanes2] at hraw2
  simp only [orderPyHash, pyTupleHash, hlanes1, hlanes2]
  rw [if_neg hraw1, if_neg hraw2]
  unfold pyTupleHashRaw
  rw [List.foldl_append, List.foldl_append]
  simp only [List.length_append, List.length_cons, List.length_nil]
  intro hcontra
  have hfa := hfold.2.1
  have hfb := hfold.2.2
  have hfn := hfold.1
  omega

set_option maxRecDepth 40000 in
/-- Witness for C10 with the Cloid lane fixed at 0: the reserved-value
hypotheses hold there. -/
theorem order_eq_does_not_determine_hash_witness :
    Order.eqv c10Order1 c10Order2 = true ∧
    c10Order1.orderId ≠ c10Order2.orderId ∧
    orderPyHash c10Order1 0 0 0 ≠ orderPyHash c10Order2 0 0 0 :=
  order_eq_does_not_determine_hash 0 0 (by decide) (by decide)

end MM

